import Mathlib

/-!
# Mesh traffic-light coordinator: embedding of `mesh_main.c` and `traffic_light.c`

The development embeds

* `recv_cb`, the inbound mesh handler that stores route advertisements,
* the loop bodies of the tasks `check_button`, `check_movement_sensor` and
  `traffic_light_control`,
* the signal setters `traffic_light_set` and `pedestrian_traffic_light_set`,

as functions on one record `Sys` that holds the file-scope statics of both C
files, the locals of `traffic_light_control` (they live across loop
iterations) and two output logs (frames handed to `esp_mesh_send`, objects
handed to `mqtt_app_publish`).

Conventions.  Bytes and `uint8_t` values are `Nat`; `int` values are `Int`
with the truncating `Int.tdiv` / `Int.tmod` of C.  One iteration of a task
loop is one atomic step; the FreeRTOS semaphores are taken with
`portMAX_DELAY`, so a take always succeeds and is not represented.  Log calls
and `vTaskDelay` have no effect on the state.  A `memcpy` that leaves the
object it copies into has undefined behaviour in C; such a call has no result
here (`none`), and neither has a step or a run that contains one.
-/

namespace MeshSemaforos

/-! ## Constants (`mesh_main.c`, `traffic_light.h`) -/

/-- The tag `CMD_BUTTON_PRESSED` of `mesh_main.c`. -/
def CMD_BUTTON_PRESSED : Nat := 0x55
/-- The tag `CMD_ROUTE_TABLE` of `mesh_main.c`. -/
def CMD_ROUTE_TABLE : Nat := 0x56
/-- The tag `CMD_MOVEMENT_DETECTED` of `mesh_main.c`. -/
def CMD_MOVEMENT_DETECTED : Nat := 0x57

/-- The colour code `TRAFFIC_LIGHT_RED` of `traffic_light.h`. -/
def TRAFFIC_LIGHT_RED : Nat := 0xff
/-- The colour code `TRAFFIC_LIGHT_YELLOW` of `traffic_light.h`. -/
def TRAFFIC_LIGHT_YELLOW : Nat := 0xfe
/-- The colour code `TRAFFIC_LIGHT_GREEN` of `traffic_light.h`. -/
def TRAFFIC_LIGHT_GREEN : Nat := 0xfd
/-- The colour code `TRAFFIC_LIGHT_INIT` of `traffic_light.h`. -/
def TRAFFIC_LIGHT_INIT : Nat := 0xfa
/-- The colour code `TRAFFIC_LIGHT_WARNING` of `traffic_light.h`. -/
def TRAFFIC_LIGHT_WARNING : Nat := 0xf9

/-- Local `minimum_green_timer` of `traffic_light_control`. -/
def minimum_green_timer : Nat := 10
/-- Local `yellow_timer` of `traffic_light_control`. -/
def yellow_timer : Nat := 3
/-- Local `red_timer` of `traffic_light_control`. -/
def red_timer : Nat := 10
/-- Local `change_red_timer` of `traffic_light_control`. -/
def change_red_timer : Nat := 5

/-! ## Data model -/

/-- The fields of `mesh_data_t` that `recv_cb` reads: `data` is the buffer the
pointer refers to, `size` the `uint16_t` byte count of the frame. -/
structure mesh_data_t where
  data : List Nat
  size : Nat
deriving DecidableEq

/-- The program state.  `s_route_table` is the memory of the static array, six
bytes per `mesh_addr_t`, `6 * CONFIG_MESH_ROUTE_TABLE_SIZE` bytes in all. -/
structure Sys where
  -- statics of mesh_main.c
  s_route_table : List Nat
  s_route_table_size : Int
  s_route_table_lock : Bool
  s_traffic_button_lock : Bool
  button_pressed : Bool
  -- locals of traffic_light_control
  color_pos : Nat
  ped_color_pos : Bool
  can_send : Bool
  timer : Nat
  -- statics of traffic_light.c and the output levels it drives
  s_light_inited : Bool
  state0 : Nat
  state1 : Nat
  LED_PIN_1 : Nat
  LED_PIN_2 : Nat
  LED_PIN_3 : Nat
  PED_LED_PIN_1 : Nat
  PED_LED_PIN_2 : Nat
  -- frames handed to esp_mesh_send: destination address and frame
  mesh_tx : List (List Nat × mesh_data_t)
  -- objects handed to mqtt_app_publish
  mqtt_tx : List (List (String × Nat))
deriving DecidableEq

/-- The call `memcpy(dst + off, src, n)`.  When the `n` bytes lie inside `dst`
from offset `off` and inside `src`, they replace the bytes of `dst` at offsets
`off .. off + n - 1` and the other bytes of `dst` stay.  Otherwise the C call
reads or writes other objects; its behaviour is undefined and the result is
`none`. -/
def memcpy (dst : List Nat) (off : Nat) (src : List Nat) (n : Nat) : Option (List Nat) :=
  if off + n ≤ dst.length ∧ n ≤ src.length then
    some (dst.take off ++ src.take n ++ dst.drop (off + n))
  else none

/-- The six bytes of `s_route_table[i]`. -/
def route_entry (s : Sys) (i : Nat) : List Nat :=
  (s.s_route_table.drop (6 * i)).take 6

/-! ## `traffic_light.c` -/

/-- The function `traffic_light_set(color)`. -/
def traffic_light_set (color : Nat) (s : Sys) : Sys :=
  let s :=
    if color = TRAFFIC_LIGHT_RED then
      { s with LED_PIN_1 := 1, LED_PIN_2 := 0, LED_PIN_3 := 0 }
    else if color = TRAFFIC_LIGHT_YELLOW then
      { s with LED_PIN_1 := 0, LED_PIN_2 := 1, LED_PIN_3 := 0 }
    else if color = TRAFFIC_LIGHT_GREEN then
      { s with LED_PIN_1 := 0, LED_PIN_2 := 0, LED_PIN_3 := 1 }
    else if color = TRAFFIC_LIGHT_INIT then
      { s with LED_PIN_1 := 1, LED_PIN_2 := 1, LED_PIN_3 := 1 }
    else if color = TRAFFIC_LIGHT_WARNING then
      { s with LED_PIN_1 := 1, LED_PIN_2 := 1, LED_PIN_3 := 0 }
    else
      { s with LED_PIN_1 := 0, LED_PIN_2 := 0, LED_PIN_3 := 0 }
  { s with state0 := color % 256 }

/-- The function `pedestrian_traffic_light_set(color)`. -/
def pedestrian_traffic_light_set (color : Nat) (s : Sys) : Sys :=
  let s :=
    if color = TRAFFIC_LIGHT_RED then
      { s with PED_LED_PIN_1 := 1, PED_LED_PIN_2 := 0 }
    else if color = TRAFFIC_LIGHT_GREEN then
      { s with PED_LED_PIN_1 := 0, PED_LED_PIN_2 := 1 }
    else if color = TRAFFIC_LIGHT_INIT then
      { s with PED_LED_PIN_1 := 1, PED_LED_PIN_2 := 0 }
    else if color = TRAFFIC_LIGHT_WARNING then
      { s with PED_LED_PIN_1 := 1, PED_LED_PIN_2 := 1 }
    else
      { s with PED_LED_PIN_1 := 0, PED_LED_PIN_2 := 0 }
  { s with state1 := color % 256 }

/-- The function `traffic_light_init()`. -/
def traffic_light_init (s : Sys) : Sys :=
  if s.s_light_inited = true then s
  else traffic_light_set TRAFFIC_LIGHT_INIT { s with s_light_inited := true }

/-! ## `mesh_main.c`: inbound handler -/

/-- The three ways `recv_cb` returns: the error return after the size check,
the table update, and a tag for which the `switch` has no case. -/
inductive RecvOutcome where
  | unexpected_size
  | table_updated
  | no_case
deriving DecidableEq

/-- The function `recv_cb(from, data)`; `from` is not read.  A read of
`data->data[0]` in an empty buffer yields `0`.  The result is `none` when the
`memcpy` of line 95 leaves the array `s_route_table` (or the frame buffer):
the code has no check against the size of the array, the bytes land in the
objects that follow it, and the behaviour is undefined. -/
def recv_cb (data : mesh_data_t) (s : Sys) : Option (RecvOutcome × Sys) :=
  if data.data.getD 0 0 = CMD_ROUTE_TABLE then
    let size : Int := (data.size : Int) - 1
    if s.s_route_table_lock = false ∨ size.tmod 6 ≠ 0 then
      some (RecvOutcome.unexpected_size, s)
    else
      let s := { s with s_route_table_size := size.tdiv 6 }
      match memcpy s.s_route_table 0 (data.data.drop 1) size.toNat with
      | none => none
      | some table => some (RecvOutcome.table_updated, { s with s_route_table := table })
  else
    some (RecvOutcome.no_case, s)

/-- The frame that carries a route advertisement with payload `b`. -/
def route_advertisement (b : List Nat) : mesh_data_t :=
  { data := CMD_ROUTE_TABLE :: b, size := b.length + 1 }

/-! ## `mesh_main.c`: sensor tasks -/

/-- The array `data_to_send` that both sensor tasks build for tag `cmd`;
`my_mac` points to six bytes, so the copy stays inside the array of eight. -/
def data_to_send (cmd : Nat) (my_mac : List Nat) : List Nat :=
  let a : List Nat := [cmd, 0, 0, 0, 0, 0, 0, 0]
  let a := (memcpy a 1 my_mac 6).getD a
  a.set 7 1

/-- One iteration of the loop of `check_button`.  `level_bt`, `level_inf` are
the two `gpio_get_level` reads, `is_root` is `esp_mesh_is_root()`, `my_mac` is
`mesh_netif_get_station_mac()`, `json_ok` tells whether `cJSON_CreateObject`
returned an object. -/
def check_button_body (level_bt level_inf is_root : Bool) (my_mac : List Nat)
    (json_ok : Bool) (s : Sys) : Sys :=
  if s.button_pressed = false ∧ (level_bt = true ∨ level_inf = false) then
    let s := { s with button_pressed := true }
    if s.s_route_table_size ≠ 0 ∧ is_root = false then
      let frame : mesh_data_t :=
        { data := data_to_send CMD_BUTTON_PRESSED my_mac, size := 8 }
      let s := { s with mesh_tx := s.mesh_tx ++ [(route_entry s 0, frame)] }
      if json_ok = false then s
      else
        { s with mqtt_tx := s.mqtt_tx ++
            [[("button", level_bt.toNat), ("infrared", level_inf.toNat)]] }
    else s
  else s

/-- One iteration of the loop of `check_movement_sensor`. -/
def check_movement_sensor_body (level is_root : Bool) (my_mac : List Nat)
    (json_ok : Bool) (s : Sys) : Sys :=
  if level = true then
    if s.s_route_table_size ≠ 0 ∧ is_root = false then
      let frame : mesh_data_t :=
        { data := data_to_send CMD_MOVEMENT_DETECTED my_mac, size := 8 }
      let s := { s with mesh_tx := s.mesh_tx ++ [(route_entry s 0, frame)] }
      if json_ok = false then s
      else { s with mqtt_tx := s.mqtt_tx ++ [[("movement", level.toNat)]] }
    else s
  else s

/-! ## `mesh_main.c`: the phase engine -/

/-- The statements of `traffic_light_control` before its loop. -/
def traffic_light_control_init (s : Sys) : Sys :=
  let s := { s with color_pos := 0, ped_color_pos := true, can_send := true, timer := 0 }
  let s := traffic_light_set TRAFFIC_LIGHT_RED s
  pedestrian_traffic_light_set TRAFFIC_LIGHT_RED s

/-- The `if (button_pressed) ... else ...` statement of the loop of
`traffic_light_control`. -/
def phase_step (s : Sys) : Sys :=
  if s.button_pressed = true then
    if s.color_pos = 0 then
      if s.timer ≤ 0 then
        let s := { s with color_pos := 1, ped_color_pos := true, timer := yellow_timer }
        let s := traffic_light_set TRAFFIC_LIGHT_YELLOW s
        { s with can_send := true }
      else { s with timer := s.timer - 1 }
    else if s.color_pos = 1 then
      if s.timer ≤ 0 then
        let s := { s with color_pos := 2, ped_color_pos := false,
                          timer := red_timer + change_red_timer }
        let s := traffic_light_set TRAFFIC_LIGHT_RED s
        let s := pedestrian_traffic_light_set TRAFFIC_LIGHT_GREEN s
        { s with can_send := true }
      else { s with timer := s.timer - 1 }
    else if s.color_pos = 2 then
      if s.timer ≤ 0 then
        let s := { s with color_pos := 0, ped_color_pos := true,
                          timer := minimum_green_timer }
        let s := traffic_light_set TRAFFIC_LIGHT_GREEN s
        let s := pedestrian_traffic_light_set TRAFFIC_LIGHT_RED s
        let s := { s with button_pressed := false }
        { s with can_send := true }
      else
        let s :=
          if s.timer ≤ change_red_timer then
            let s :=
              if s.ped_color_pos = true then pedestrian_traffic_light_set 0 s
              else pedestrian_traffic_light_set TRAFFIC_LIGHT_GREEN s
            { s with ped_color_pos := !s.ped_color_pos }
          else s
        { s with timer := s.timer - 1 }
    else s
  else
    let s := traffic_light_set TRAFFIC_LIGHT_GREEN s
    let s := pedestrian_traffic_light_set TRAFFIC_LIGHT_RED s
    if s.timer > 0 then { s with timer := s.timer - 1 } else s

/-- The `if (can_send) ...` statement of the loop of `traffic_light_control`;
`json_ok` tells whether `cJSON_CreateObject` returned an object. -/
def publish_step (json_ok : Bool) (s : Sys) : Sys :=
  if s.can_send = true then
    if json_ok = false then s
    else
      let s := { s with mqtt_tx := s.mqtt_tx ++
        [[("semaforo_coches", s.color_pos), ("semaforo_peaton", s.ped_color_pos.toNat)]] }
      { s with can_send := false }
  else s

/-- One iteration of the loop of `traffic_light_control`. -/
def traffic_light_control_body (json_ok : Bool) (s : Sys) : Sys :=
  publish_step json_ok (phase_step s)

/-! ## Start-up and runs -/

/-- The state given by the static initialisers; the route table has
`6 * cap` bytes, `cap` being `CONFIG_MESH_ROUTE_TABLE_SIZE`. -/
def boot (cap : Nat) : Sys :=
  { s_route_table := List.replicate (6 * cap) 0
    s_route_table_size := 0
    s_route_table_lock := false
    s_traffic_button_lock := false
    button_pressed := false
    color_pos := 0
    ped_color_pos := false
    can_send := false
    timer := 0
    s_light_inited := false
    state0 := 0
    state1 := 0
    LED_PIN_1 := 0
    LED_PIN_2 := 0
    LED_PIN_3 := 0
    PED_LED_PIN_1 := 0
    PED_LED_PIN_2 := 0
    mesh_tx := []
    mqtt_tx := [] }

/-- The two `xSemaphoreCreateMutex` calls of `esp_mesh_comm_mqtt_task_start`. -/
def esp_mesh_comm_mqtt_task_start (s : Sys) : Sys :=
  { s with s_route_table_lock := true, s_traffic_button_lock := true }

/-- The state when `traffic_light_control` reaches its loop for the first
time: `app_main` has run `traffic_light_init`, the locks exist, the engine has
initialised its locals and driven both signals. -/
def startup (cap : Nat) : Sys :=
  traffic_light_control_init (esp_mesh_comm_mqtt_task_start (traffic_light_init (boot cap)))

/-- The steps of the system: one loop iteration of a task, or one delivery to
`recv_cb`. -/
inductive Event where
  | tick (json_ok : Bool)
  | button_poll (level_bt level_inf is_root : Bool) (my_mac : List Nat) (json_ok : Bool)
  | movement_poll (level is_root : Bool) (my_mac : List Nat) (json_ok : Bool)
  | recv (data : mesh_data_t)
deriving DecidableEq

/-- The effect of one step; `none` when the step is a delivery for which
`recv_cb` has no defined result. -/
def step (s : Sys) (e : Event) : Option Sys :=
  match e with
  | Event.tick j => some (traffic_light_control_body j s)
  | Event.button_poll bt inf r mac j => some (check_button_body bt inf r mac j s)
  | Event.movement_poll l r mac j => some (check_movement_sensor_body l r mac j s)
  | Event.recv d => (recv_cb d s).map Prod.snd

/-- The effect of a sequence of steps, first to last; `none` when one of them
has no defined result. -/
def run : List Event → Sys → Option Sys
  | [], s => some s
  | e :: es, s => (step s e).bind (run es)

/-- A state is reachable when some sequence of steps, each with a defined
result, leads to it from start-up. -/
def Reachable (cap : Nat) (s : Sys) : Prop :=
  ∃ es : List Event, run es (startup cap) = some s

/-- The engine ticks `js`, one per entry; the entry is the tick's
`json_ok`. -/
def ticks (js : List Bool) (s : Sys) : Sys :=
  js.foldl (fun s j => traffic_light_control_body j s) s

/-- The states after each of the ticks `js`. -/
def tick_trace : List Bool → Sys → List Sys
  | [], _ => []
  | j :: js, s => traffic_light_control_body j s :: tick_trace js (traffic_light_control_body j s)

/-! ## Observations, invariants and sample states -/

/-- What the pedestrian side shows: the colour last handed to
`pedestrian_traffic_light_set`, the two pedestrian output levels, and the
mirror `ped_color_pos`. -/
def ped_view (s : Sys) : Nat × Nat × Nat × Bool :=
  (s.state1, s.PED_LED_PIN_1, s.PED_LED_PIN_2, s.ped_color_pos)

/-- The fields a sensor poll or a delivery to `recv_cb` cannot change. -/
def SameSignals (s t : Sys) : Prop :=
  t.color_pos = s.color_pos ∧ t.ped_color_pos = s.ped_color_pos ∧ t.timer = s.timer ∧
  t.can_send = s.can_send ∧ t.state0 = s.state0 ∧ t.state1 = s.state1 ∧
  t.LED_PIN_1 = s.LED_PIN_1 ∧ t.LED_PIN_2 = s.LED_PIN_2 ∧ t.LED_PIN_3 = s.LED_PIN_3 ∧
  t.PED_LED_PIN_1 = s.PED_LED_PIN_1 ∧ t.PED_LED_PIN_2 = s.PED_LED_PIN_2

/-- The invariant behind mutual exclusivity: while the mirror says vehicle
green or yellow the pedestrian signal was last driven red, and while it says
vehicle red the request is pending and the vehicle signal was last driven
red. -/
def SafeInv (s : Sys) : Prop :=
  (s.color_pos = 0 ∧ s.ped_color_pos = true ∧ s.state1 = TRAFFIC_LIGHT_RED ∧
      s.PED_LED_PIN_2 = 0) ∨
  (s.color_pos = 1 ∧ s.ped_color_pos = true ∧ s.state1 = TRAFFIC_LIGHT_RED ∧
      s.PED_LED_PIN_2 = 0) ∨
  (s.color_pos = 2 ∧ s.button_pressed = true ∧ s.state0 = TRAFFIC_LIGHT_RED ∧
      s.LED_PIN_3 = 0)

/-- The invariant of the route table in the reachable states: the array keeps
its `6 * cap` bytes, and the logical length lies between 0 and `cap`. -/
def TableInv (cap : Nat) (s : Sys) : Prop :=
  s.s_route_table.length = 6 * cap ∧ 0 ≤ s.s_route_table_size ∧
  s.s_route_table_size ≤ (cap : Int)

/-- The state in which the engine, started by one button poll at start-up, has
counted the yellow phase down to 0: 1 + 3 ticks after the poll. -/
def yellow_expired : Sys :=
  ticks (List.replicate 4 true) (check_button_body true true true [] true (startup 2))

/-- The state in which the engine, started by one button poll at start-up, has
just entered the red phase: 1 + 4 ticks after the poll. -/
def red_entered : Sys :=
  ticks (List.replicate 5 true) (check_button_body true true true [] true (startup 2))

/-- The state in which the engine, started by one button poll at start-up, has
counted the red phase down to 0: 1 + 4 + 15 ticks after the poll. -/
def red_expired : Sys :=
  ticks (List.replicate 20 true) (check_button_body true true true [] true (startup 2))

/-- A leaf with one known route: the state at start-up after an advertisement
of the one entry `24:0a:c4:00:00:01`. -/
def leaf_with_route : Sys :=
  { startup 2 with
    s_route_table_size := 1
    s_route_table := [0x24, 0x0a, 0xc4, 0x00, 0x00, 0x01, 0, 0, 0, 0, 0, 0] }

/-- The number of frames with tag `CMD_BUTTON_PRESSED` handed to
`esp_mesh_send` so far. -/
def button_frames (s : Sys) : Nat :=
  (s.mesh_tx.filter (fun p => p.2.data.getD 0 0 == CMD_BUTTON_PRESSED)).length

/-- The number of steps of the run `es` from `s` that take the request flag
from set to clear, counted up to the first step without a defined result. -/
def flag_clears : List Event → Sys → Nat
  | [], _ => 0
  | e :: es, s =>
    match step s e with
    | none => 0
    | some t =>
      (if s.button_pressed = true ∧ t.button_pressed = false then 1 else 0)
        + flag_clears es t

/-- A button held on a leaf with one known route: every poll reads the button
level high; one poll, ten ticks, a poll, eleven ticks, a poll. -/
def held_button_run : List Event :=
  [Event.button_poll true true false [1, 2, 3, 4, 5, 6] true]
    ++ List.replicate 10 (Event.tick true)
    ++ [Event.button_poll true true false [1, 2, 3, 4, 5, 6] true]
    ++ List.replicate 11 (Event.tick true)
    ++ [Event.button_poll true true false [1, 2, 3, 4, 5, 6] true]

/-- What the light sequence consists of: request flag, phase, pedestrian
mirror, countdown, the colours last driven and the five output levels. -/
def light_view (s : Sys) :
    Bool × Nat × Bool × Nat × Nat × Nat × Nat × Nat × Nat × Nat × Nat :=
  (s.button_pressed, s.color_pos, s.ped_color_pos, s.timer, s.state0, s.state1,
    s.LED_PIN_1, s.LED_PIN_2, s.LED_PIN_3, s.PED_LED_PIN_1, s.PED_LED_PIN_2)

/-- The pedestrian side in the red phase as a function of the countdown: from
countdown 5 up the signal was last driven green with the mirror at 0; below 5
an even countdown goes with green driven and the mirror at 1, an odd one with
0 driven, both outputs low, and the mirror at 0. -/
def RedShape (s : Sys) : Prop :=
  (5 ≤ s.timer → ped_view s = (TRAFFIC_LIGHT_GREEN, 0, 1, false)) ∧
  (s.timer < 5 → s.timer % 2 = 0 → ped_view s = (TRAFFIC_LIGHT_GREEN, 0, 1, true)) ∧
  (s.timer < 5 → s.timer % 2 = 1 → ped_view s = (0, 0, 0, false))

/-- The invariant of the reachable states used for the idle clamp and the
pedestrian output: the countdown is at most 15, the phase is 0, 1 or 2, with
no request pending the phase is 0, outside the red phase the mirror reads red,
and in the red phase the request is pending and `RedShape` holds. -/
def EngineInv (s : Sys) : Prop :=
  s.timer ≤ 15 ∧ s.color_pos ≤ 2 ∧
  (s.button_pressed = false → s.color_pos = 0) ∧
  (s.color_pos ≠ 2 → s.ped_color_pos = true) ∧
  (s.color_pos = 2 → s.button_pressed = true ∧ RedShape s)

/-- The state in which the engine, started by one button poll at start-up, has
counted the red phase down to 5: 1 + 4 + 10 ticks after the poll. -/
def red_blink_start : Sys :=
  ticks (List.replicate 15 true) (check_button_body true true true [] true (startup 2))

/-- The state in which the engine idles after a first cycle and a new request
has just been set: countdown 10, phase 0, flag set. -/
def second_request : Sys :=
  check_button_body true true true [] true
    (ticks (List.replicate 21 true) (check_button_body true true true [] true (startup 2)))

/-! ## Route cache -/

theorem recv_cb_route_advertisement (s : Sys) (b : List Nat) :
    recv_cb (route_advertisement b) s =
      if s.s_route_table_lock = false ∨ b.length % 6 ≠ 0 then
        some (RecvOutcome.unexpected_size, s)
      else if b.length ≤ s.s_route_table.length then
        some (RecvOutcome.table_updated,
          { s with s_route_table_size := ((b.length / 6 : Nat) : Int),
                   s_route_table := b ++ s.s_route_table.drop b.length })
      else none := by
  have hsz : (((b.length + 1 : Nat) : Int) - 1) = (b.length : Int) := by
    push_cast; ring
  have hm : ((b.length : Int).tmod 6 ≠ 0) ↔ b.length % 6 ≠ 0 := by
    rw [show (6 : Int) = ((6 : Nat) : Int) from rfl, ← Int.ofNat_tmod]
    exact_mod_cast Iff.rfl
  have hd : (b.length : Int).tdiv 6 = ((b.length / 6 : Nat) : Int) := by
    rw [show (6 : Int) = ((6 : Nat) : Int) from rfl, ← Int.ofNat_tdiv]
  simp only [recv_cb, route_advertisement, List.getD_cons_zero, hsz, hm, hd,
    if_true, List.drop_succ_cons, List.drop_zero, Int.toNat_ofNat, memcpy, List.take_zero,
    List.nil_append, List.take_length, Nat.zero_add, Nat.le_refl, and_true]
  by_cases h1 : s.s_route_table_lock = false ∨ b.length % 6 ≠ 0
  · rw [if_pos h1, if_pos h1]
  · rw [if_neg h1, if_neg h1]
    by_cases h2 : b.length ≤ s.s_route_table.length
    · rw [if_pos h2, if_pos h2]
    · rw [if_neg h2, if_neg h2]

theorem recv_cb_valid (s : Sys) (b : List Nat) (hlock : s.s_route_table_lock = true)
    (hb : b.length % 6 = 0) (hfit : b.length ≤ s.s_route_table.length) :
    recv_cb (route_advertisement b) s =
        some (RecvOutcome.table_updated,
          { s with s_route_table_size := ((b.length / 6 : Nat) : Int),
                   s_route_table := b ++ s.s_route_table.drop b.length }) := by
  rw [recv_cb_route_advertisement]
  simp [hlock, hb, hfit]

theorem recv_cb_malformed (s : Sys) (b : List Nat) (hb : b.length % 6 ≠ 0) :
    recv_cb (route_advertisement b) s = some (RecvOutcome.unexpected_size, s) := by
  rw [recv_cb_route_advertisement]
  simp [hb]

theorem recv_cb_overrun (s : Sys) (b : List Nat) (hlock : s.s_route_table_lock = true)
    (hb : b.length % 6 = 0) (hfit : s.s_route_table.length < b.length) :
    recv_cb (route_advertisement b) s = none := by
  rw [recv_cb_route_advertisement]
  have h2 : ¬ b.length ≤ s.s_route_table.length := by omega
  simp [hlock, hb, h2]

theorem step_recv (d : mesh_data_t) (s t : Sys) (h : step s (Event.recv d) = some t) :
    ∃ o, recv_cb d s = some (o, t) := by
  have h2 : (recv_cb d s).map Prod.snd = some t := h
  cases hr : recv_cb d s with
  | none => rw [hr] at h2; cases h2
  | some p =>
    rw [hr] at h2
    obtain ⟨o, u⟩ := p
    have hu : u = t := Option.some.inj h2
    exact ⟨o, by rw [hu]⟩

theorem run_cons (e : Event) (es : List Event) (s u : Sys) (h : step s e = some u) :
    run (e :: es) s = run es u := by
  show (step s e).bind (run es) = run es u
  rw [h]
  rfl

theorem run_invariant (P : Sys → Prop)
    (hstep : ∀ s e t, P s → step s e = some t → P t) :
    ∀ (es : List Event) (s t : Sys), P s → run es s = some t → P t := by
  intro es
  induction es with
  | nil =>
    intro s t hs hr
    have : s = t := Option.some.inj hr
    exact this ▸ hs
  | cons e es ih =>
    intro s t hs hr
    cases hst : step s e with
    | none =>
      have : run (e :: es) s = none := by
        show (step s e).bind (run es) = none
        rw [hst]; rfl
      rw [this] at hr
      cases hr
    | some u =>
      rw [run_cons e es s u hst] at hr
      exact ih u t (hstep s e u hs hst) hr

theorem entry_of_append (b rest : List Nat) (i : Nat) (hi : 6 * i + 6 ≤ b.length) :
    ((b ++ rest).drop (6 * i)).take 6 = (b.drop (6 * i)).take 6 := by
  rw [List.drop_append_of_le_length (by omega)]
  rw [List.take_append_of_le_length (by rw [List.length_drop]; omega)]

/-- C1, as stated, fails: at start-up with a table of two entries (12 bytes)
and the lock created, an advertisement of three entries has a payload length
that is a multiple of 6, yet the update does not succeed: the copy of 18 bytes
leaves the array and the call has no defined result. -/
theorem route_validity_counterexample :
    (startup 2).s_route_table_lock = true ∧ (startup 2).s_route_table.length = 12 ∧
    (List.replicate 18 0xaa).length % 6 = 0 ∧
    memcpy (startup 2).s_route_table 0 (List.replicate 18 0xaa) 18 = none ∧
    recv_cb (route_advertisement (List.replicate 18 0xaa)) (startup 2) = none ∧
    ¬ ((∃ t, recv_cb (route_advertisement (List.replicate 18 0xaa)) (startup 2)
          = some (RecvOutcome.table_updated, t)) ↔
        (List.replicate 18 0xaa).length % 6 = 0) := by
  have h : recv_cb (route_advertisement (List.replicate 18 0xaa)) (startup 2) = none := by
    decide
  refine ⟨by decide, by decide, by decide, by decide, h, ?_⟩
  intro hiff
  obtain ⟨t, ht⟩ := hiff.mpr (by decide)
  rw [h] at ht
  cases ht

/-- C1, amended (route validity).  Once the route-table lock exists, for every
payload `b` no longer than the table (`6 * CONFIG_MESH_ROUTE_TABLE_SIZE`
bytes), `recv_cb` stores the advertisement exactly when `b.length % 6 = 0`; it
then sets the logical length to `b.length / 6` and entry `i` to bytes
`6i .. 6i+5` of `b`, so entry 0 to the first six bytes of `b` when `b` has at
least six, and the table keeps its size. -/
theorem route_validity (s : Sys) (b : List Nat) (hlock : s.s_route_table_lock = true)
    (hfit : b.length ≤ s.s_route_table.length) :
    ((∃ t, recv_cb (route_advertisement b) s = some (RecvOutcome.table_updated, t))
      ↔ b.length % 6 = 0) ∧
    (b.length % 6 ≠ 0 →
      recv_cb (route_advertisement b) s = some (RecvOutcome.unexpected_size, s)) ∧
    (b.length % 6 = 0 →
      ∃ t, recv_cb (route_advertisement b) s = some (RecvOutcome.table_updated, t) ∧
        t.s_route_table_size = ((b.length / 6 : Nat) : Int) ∧
        t.s_route_table.length = s.s_route_table.length ∧
        (∀ i, i < b.length / 6 → route_entry t i = (b.drop (6 * i)).take 6) ∧
        (6 ≤ b.length → route_entry t 0 = b.take 6)) := by
  refine ⟨?_, fun hb => recv_cb_malformed s b hb, ?_⟩
  · by_cases hb : b.length % 6 = 0
    · rw [recv_cb_valid s b hlock hb hfit]
      exact ⟨fun _ => hb, fun _ => ⟨_, rfl⟩⟩
    · rw [recv_cb_malformed s b hb]
      constructor
      · rintro ⟨t, ht⟩
        have hne : RecvOutcome.unexpected_size = RecvOutcome.table_updated :=
          congrArg Prod.fst (Option.some.inj ht)
        exact absurd hne (by decide)
      · intro h
        exact absurd h hb
  · intro hb
    refine ⟨_, recv_cb_valid s b hlock hb hfit, rfl, ?_, ?_, ?_⟩
    · show (b ++ s.s_route_table.drop b.length).length = s.s_route_table.length
      rw [List.length_append, List.length_drop]
      omega
    · intro i hi
      exact entry_of_append b _ i (by omega)
    · intro h6
      have := entry_of_append b (s.s_route_table.drop b.length) 0 (by omega)
      simpa [route_entry] using this

theorem route_validity_witness :
    (startup 2).s_route_table_lock = true ∧
    [1, 2, 3, 4, 5, 6, 7, 8, 9, 10, 11, 12].length ≤ (startup 2).s_route_table.length ∧
    ((∃ t, recv_cb (route_advertisement [1, 2, 3, 4, 5, 6, 7, 8, 9, 10, 11, 12]) (startup 2)
        = some (RecvOutcome.table_updated, t))
      ↔ [1, 2, 3, 4, 5, 6, 7, 8, 9, 10, 11, 12].length % 6 = 0) :=
  ⟨rfl, by decide,
    (route_validity (startup 2) [1, 2, 3, 4, 5, 6, 7, 8, 9, 10, 11, 12] rfl (by decide)).1⟩

/-- C2 (route atomicity).  A route advertisement whose payload length is not a
multiple of 6 takes the error return of `recv_cb` and leaves the whole state,
so the table bytes and the logical length, as it was; after a valid update `a`
that fits the table, followed by such an advertisement, the table still holds
the entries of `a`. -/
theorem route_atomicity (s : Sys) (a b : List Nat) (hb : b.length % 6 ≠ 0) :
    recv_cb (route_advertisement b) s = some (RecvOutcome.unexpected_size, s) ∧
    (recv_cb (route_advertisement b) s).map (fun r => r.2.s_route_table)
      = some s.s_route_table ∧
    (recv_cb (route_advertisement b) s).map (fun r => r.2.s_route_table_size)
      = some s.s_route_table_size ∧
    step s (Event.recv (route_advertisement b)) = some s ∧
    run [Event.recv (route_advertisement a), Event.recv (route_advertisement b)] s
      = run [Event.recv (route_advertisement a)] s ∧
    (s.s_route_table_lock = true → a.length % 6 = 0 → a.length ≤ s.s_route_table.length →
      ∃ t, run [Event.recv (route_advertisement a), Event.recv (route_advertisement b)] s
          = some t ∧
        t.s_route_table_size = ((a.length / 6 : Nat) : Int) ∧
        ∀ i, i < a.length / 6 → route_entry t i = (a.drop (6 * i)).take 6) := by
  have hstep : ∀ u, step u (Event.recv (route_advertisement b)) = some u := by
    intro u
    show (recv_cb (route_advertisement b) u).map Prod.snd = some u
    rw [recv_cb_malformed u b hb]
    rfl
  have h2 : run [Event.recv (route_advertisement a), Event.recv (route_advertisement b)] s
      = run [Event.recv (route_advertisement a)] s := by
    show (step s (Event.recv (route_advertisement a))).bind
        (run [Event.recv (route_advertisement b)])
      = (step s (Event.recv (route_advertisement a))).bind (run [])
    cases step s (Event.recv (route_advertisement a)) with
    | none => rfl
    | some u =>
      show (step u (Event.recv (route_advertisement b))).bind (run []) = some u
      rw [hstep u]
      rfl
  refine ⟨recv_cb_malformed s b hb, by rw [recv_cb_malformed s b hb]; rfl,
    by rw [recv_cb_malformed s b hb]; rfl, hstep s, h2, ?_⟩
  intro hlock ha hfit
  rw [h2]
  refine ⟨{ s with s_route_table_size := ((a.length / 6 : Nat) : Int),
                     s_route_table := a ++ s.s_route_table.drop a.length },
    ?_, rfl, fun i hi => entry_of_append a _ i (by omega)⟩
  show (step s (Event.recv (route_advertisement a))).bind (run []) = _
  show ((recv_cb (route_advertisement a) s).map Prod.snd).bind (run []) = _
  rw [recv_cb_valid s a hlock ha hfit]
  rfl

theorem route_atomicity_witness :
    [9, 9, 9].length % 6 ≠ 0 ∧
    recv_cb (route_advertisement [9, 9, 9]) leaf_with_route
      = some (RecvOutcome.unexpected_size, leaf_with_route) :=
  ⟨by decide, (route_atomicity leaf_with_route [] [9, 9, 9] (by decide)).1⟩

/-! ## Envelope rejection and table capacity -/

/-- C9, as stated, fails: with one entry stored, a frame of length 1 holding
only the tag `CMD_ROUTE_TABLE` is stored as an empty advertisement, and the
logical length drops from 1 to 0. -/
theorem envelope_rejection_counterexample :
    leaf_with_route.s_route_table_size = 1 ∧
    (recv_cb { data := [CMD_ROUTE_TABLE], size := 1 } leaf_with_route).map Prod.fst
      = some RecvOutcome.table_updated ∧
    (recv_cb { data := [CMD_ROUTE_TABLE], size := 1 } leaf_with_route).map
        (fun r => r.2.s_route_table_size) = some 0 := by
  decide

/-- C9, amended.  A frame of length 0 is never stored and leaves the whole
state as it was, whatever the buffer holds.  A frame of length 1 holding only
the tag `CMD_ROUTE_TABLE` takes the error return and changes nothing while the
route-table lock does not exist; once the lock exists it is stored as an empty
advertisement: the table bytes and every other field stay, the logical length
becomes 0. -/
theorem envelope_rejection_amended (s : Sys) (buf : List Nat) :
    (recv_cb { data := buf, size := 0 } s).map Prod.fst ≠ some RecvOutcome.table_updated ∧
    (recv_cb { data := buf, size := 0 } s).map Prod.snd = some s ∧
    recv_cb { data := [CMD_ROUTE_TABLE], size := 1 } s =
      (if s.s_route_table_lock = true then
        some (RecvOutcome.table_updated, { s with s_route_table_size := 0 })
      else some (RecvOutcome.unexpected_size, s)) := by
  have hneg : (((0 : Nat) : Int) - 1).tmod 6 ≠ 0 := by decide
  have key : recv_cb { data := buf, size := 0 } s =
      (if buf.getD 0 0 = CMD_ROUTE_TABLE then some (RecvOutcome.unexpected_size, s)
       else some (RecvOutcome.no_case, s)) := by
    simp only [recv_cb, hneg, ne_eq, not_false_eq_true, or_true, if_true]
  refine ⟨?_, ?_, ?_⟩
  · rw [key]; split_ifs <;> simp
  · rw [key]; split_ifs <;> rfl
  · have h := recv_cb_route_advertisement s []
    simp only [route_advertisement, List.length_nil, Nat.zero_add] at h
    rw [h]
    cases hl : s.s_route_table_lock <;> simp

/-- C10, the code at the failing input.  For every capacity `cap`, take an
advertisement of `cap + 1` entries delivered at start-up, where the array has
`6 * cap` bytes.  The frame passes the check of line 85 (the lock exists and
the payload length is a multiple of 6), line 90 sets the logical length to
`cap + 1`, and the `memcpy` of line 95 is called with `6 * cap + 6` bytes: it
writes past the array, so neither the copy nor `recv_cb` has a defined
result. -/
theorem route_table_capacity_exceeded (cap : Nat) :
    (startup cap).s_route_table.length = 6 * cap ∧
    (startup cap).s_route_table_lock = true ∧
    (List.replicate (6 * (cap + 1)) 0xaa).length % 6 = 0 ∧
    (((route_advertisement (List.replicate (6 * (cap + 1)) 0xaa)).size : Int) - 1).tdiv 6
      = ((cap + 1 : Nat) : Int) ∧
    (((route_advertisement (List.replicate (6 * (cap + 1)) 0xaa)).size : Int) - 1).toNat
      = 6 * cap + 6 ∧
    memcpy (startup cap).s_route_table 0 (List.replicate (6 * (cap + 1)) 0xaa) (6 * cap + 6)
      = none ∧
    recv_cb (route_advertisement (List.replicate (6 * (cap + 1)) 0xaa)) (startup cap)
      = none := by
  have hlock : (startup cap).s_route_table_lock = true := rfl
  have htbl : (startup cap).s_route_table = List.replicate (6 * cap) 0 := rfl
  have hl : (List.replicate (6 * (cap + 1)) 0xaa).length = 6 * (cap + 1) :=
    List.length_replicate _ _
  have hlen : (List.replicate (6 * (cap + 1)) 0xaa).length % 6 = 0 := by
    rw [hl]; omega
  have hsize : (((route_advertisement (List.replicate (6 * (cap + 1)) 0xaa)).size : Int) - 1)
      = ((6 * (cap + 1) : Nat) : Int) := by
    simp only [route_advertisement, hl]
    push_cast
    ring
  refine ⟨by simp [htbl], hlock, hlen, ?_, ?_, ?_, ?_⟩
  · rw [hsize, show (6 : Int) = ((6 : Nat) : Int) from rfl, ← Int.ofNat_tdiv,
      Nat.mul_div_cancel_left _ (by decide)]
  · rw [hsize, Int.toNat_ofNat]
    omega
  · unfold memcpy
    rw [if_neg]
    rw [htbl, List.length_replicate]
    omega
  · exact recv_cb_overrun _ _ hlock hlen (by rw [htbl, List.length_replicate, hl]; omega)

/-! ## Phase engine: the setters at the colours the engine uses -/

theorem traffic_light_set_red (s : Sys) :
    traffic_light_set TRAFFIC_LIGHT_RED s =
      { s with LED_PIN_1 := 1, LED_PIN_2 := 0, LED_PIN_3 := 0, state0 := 0xff } := rfl

theorem traffic_light_set_yellow (s : Sys) :
    traffic_light_set TRAFFIC_LIGHT_YELLOW s =
      { s with LED_PIN_1 := 0, LED_PIN_2 := 1, LED_PIN_3 := 0, state0 := 0xfe } := rfl

theorem traffic_light_set_green (s : Sys) :
    traffic_light_set TRAFFIC_LIGHT_GREEN s =
      { s with LED_PIN_1 := 0, LED_PIN_2 := 0, LED_PIN_3 := 1, state0 := 0xfd } := rfl

theorem pedestrian_traffic_light_set_red (s : Sys) :
    pedestrian_traffic_light_set TRAFFIC_LIGHT_RED s =
      { s with PED_LED_PIN_1 := 1, PED_LED_PIN_2 := 0, state1 := 0xff } := rfl

theorem pedestrian_traffic_light_set_green (s : Sys) :
    pedestrian_traffic_light_set TRAFFIC_LIGHT_GREEN s =
      { s with PED_LED_PIN_1 := 0, PED_LED_PIN_2 := 1, state1 := 0xfd } := rfl

theorem pedestrian_traffic_light_set_zero (s : Sys) :
    pedestrian_traffic_light_set 0 s =
      { s with PED_LED_PIN_1 := 0, PED_LED_PIN_2 := 0, state1 := 0 } := rfl

/-! ## Phase engine: `phase_step` case by case -/

theorem phase_step_idle (s : Sys) (hb : s.button_pressed = false) :
    phase_step s =
      { s with LED_PIN_1 := 0, LED_PIN_2 := 0, LED_PIN_3 := 1, state0 := 0xfd,
               PED_LED_PIN_1 := 1, PED_LED_PIN_2 := 0, state1 := 0xff,
               timer := s.timer - 1 } := by
  unfold phase_step
  simp only [traffic_light_set_green, pedestrian_traffic_light_set_red]
  simp only [hb, Bool.false_eq_true, if_false]
  by_cases ht : s.timer > 0
  · simp only [ht, if_true]
  · have h0 : s.timer = 0 := by omega
    simp only [h0, gt_iff_lt, Nat.lt_irrefl, if_false]

theorem phase_step_green_wait (s : Sys) (hb : s.button_pressed = true)
    (hc : s.color_pos = 0) (ht : 0 < s.timer) :
    phase_step s = { s with timer := s.timer - 1 } := by
  unfold phase_step
  have ht2 : ¬ s.timer ≤ 0 := by omega
  simp only [hb, hc, ht2, if_true, if_false]

theorem phase_step_green_go (s : Sys) (hb : s.button_pressed = true)
    (hc : s.color_pos = 0) (ht : s.timer = 0) :
    phase_step s =
      { s with color_pos := 1, ped_color_pos := true, timer := 3,
               LED_PIN_1 := 0, LED_PIN_2 := 1, LED_PIN_3 := 0, state0 := 0xfe,
               can_send := true } := by
  unfold phase_step
  simp only [traffic_light_set_yellow]
  simp only [hb, hc, ht, Nat.le_refl, if_true, yellow_timer]

theorem phase_step_yellow_wait (s : Sys) (hb : s.button_pressed = true)
    (hc : s.color_pos = 1) (ht : 0 < s.timer) :
    phase_step s = { s with timer := s.timer - 1 } := by
  unfold phase_step
  have ht2 : ¬ s.timer ≤ 0 := by omega
  simp only [hb, hc, ht2, if_true, if_false, Nat.one_ne_zero, Nat.succ_ne_zero]

theorem phase_step_yellow_go (s : Sys) (hb : s.button_pressed = true)
    (hc : s.color_pos = 1) (ht : s.timer = 0) :
    phase_step s =
      { s with color_pos := 2, ped_color_pos := false, timer := 15,
               LED_PIN_1 := 1, LED_PIN_2 := 0, LED_PIN_3 := 0, state0 := 0xff,
               PED_LED_PIN_1 := 0, PED_LED_PIN_2 := 1, state1 := 0xfd,
               can_send := true } := by
  unfold phase_step
  simp only [traffic_light_set_red, pedestrian_traffic_light_set_green]
  simp only [hb, hc, ht, Nat.le_refl, if_true, if_false, Nat.one_ne_zero, red_timer,
    change_red_timer]

theorem phase_step_red_go (s : Sys) (hb : s.button_pressed = true)
    (hc : s.color_pos = 2) (ht : s.timer = 0) :
    phase_step s =
      { s with color_pos := 0, ped_color_pos := true, timer := 10,
               LED_PIN_1 := 0, LED_PIN_2 := 0, LED_PIN_3 := 1, state0 := 0xfd,
               PED_LED_PIN_1 := 1, PED_LED_PIN_2 := 0, state1 := 0xff,
               button_pressed := false, can_send := true } := by
  unfold phase_step
  simp only [traffic_light_set_green, pedestrian_traffic_light_set_red]
  have h20 : (2 : Nat) ≠ 0 := by decide
  have h21 : (2 : Nat) ≠ 1 := by decide
  simp only [hb, hc, ht, Nat.le_refl, if_true, if_false, h20, h21, minimum_green_timer]

theorem phase_step_red_hold (s : Sys) (hb : s.button_pressed = true)
    (hc : s.color_pos = 2) (ht : 5 < s.timer) :
    phase_step s = { s with timer := s.timer - 1 } := by
  unfold phase_step
  have ht2 : ¬ s.timer ≤ 0 := by omega
  have ht3 : ¬ s.timer ≤ change_red_timer := by unfold change_red_timer; omega
  have h20 : (2 : Nat) ≠ 0 := by decide
  have h21 : (2 : Nat) ≠ 1 := by decide
  simp only [hb, hc, ht2, ht3, if_true, if_false, h20, h21]

theorem phase_step_red_blink_from_red (s : Sys) (hb : s.button_pressed = true)
    (hc : s.color_pos = 2) (ht : 0 < s.timer) (ht5 : s.timer ≤ 5)
    (hp : s.ped_color_pos = true) :
    phase_step s =
      { s with PED_LED_PIN_1 := 0, PED_LED_PIN_2 := 0, state1 := 0,
               ped_color_pos := false, timer := s.timer - 1 } := by
  unfold phase_step
  simp only [pedestrian_traffic_light_set_zero]
  have ht2 : ¬ s.timer ≤ 0 := by omega
  have ht3 : s.timer ≤ change_red_timer := ht5
  have h20 : (2 : Nat) ≠ 0 := by decide
  have h21 : (2 : Nat) ≠ 1 := by decide
  simp only [hb, hc, hp, ht2, ht3, if_true, if_false, h20, h21, Bool.not_true]

theorem phase_step_red_blink_from_green (s : Sys) (hb : s.button_pressed = true)
    (hc : s.color_pos = 2) (ht : 0 < s.timer) (ht5 : s.timer ≤ 5)
    (hp : s.ped_color_pos = false) :
    phase_step s =
      { s with PED_LED_PIN_1 := 0, PED_LED_PIN_2 := 1, state1 := 0xfd,
               ped_color_pos := true, timer := s.timer - 1 } := by
  unfold phase_step
  simp only [pedestrian_traffic_light_set_green]
  have ht2 : ¬ s.timer ≤ 0 := by omega
  have ht3 : s.timer ≤ change_red_timer := ht5
  have h20 : (2 : Nat) ≠ 0 := by decide
  have h21 : (2 : Nat) ≠ 1 := by decide
  simp only [hb, hc, hp, ht2, ht3, if_true, if_false, h20, h21, Bool.not_false,
    Bool.false_eq_true]

theorem phase_step_other (s : Sys) (hb : s.button_pressed = true)
    (h0 : s.color_pos ≠ 0) (h1 : s.color_pos ≠ 1) (h2 : s.color_pos ≠ 2) :
    phase_step s = s := by
  unfold phase_step
  simp only [hb, h0, h1, h2, if_true, if_false]

/-! ## Phase engine: what the other steps leave alone -/

theorem publish_step_eq (j : Bool) (s : Sys) :
    publish_step j s =
      { s with
        mqtt_tx := if s.can_send = true ∧ j = true then
            s.mqtt_tx ++ [[("semaforo_coches", s.color_pos),
              ("semaforo_peaton", s.ped_color_pos.toNat)]]
          else s.mqtt_tx,
        can_send := s.can_send && !j } := by
  unfold publish_step
  cases hc : s.can_send <;> cases j <;> simp [hc]
  all_goals (cases s; simp_all)

theorem check_button_body_signals (bt inf r : Bool) (mac : List Nat) (j : Bool) (s : Sys) :
    SameSignals s (check_button_body bt inf r mac j s) := by
  unfold check_button_body SameSignals
  by_cases h1 : s.button_pressed = false ∧ (bt = true ∨ inf = false) <;>
    by_cases h2 : s.s_route_table_size ≠ 0 ∧ r = false <;> cases j <;> simp [h1, h2]

theorem check_button_body_flag (bt inf r : Bool) (mac : List Nat) (j : Bool) (s : Sys) :
    (check_button_body bt inf r mac j s).button_pressed
      = (s.button_pressed || (bt || !inf)) := by
  unfold check_button_body
  cases hb : s.button_pressed <;> cases bt <;> cases inf <;>
    by_cases h2 : s.s_route_table_size ≠ 0 ∧ r = false <;> cases j <;> simp [hb, h2]

theorem check_button_body_pending (bt inf r : Bool) (mac : List Nat) (j : Bool) (s : Sys)
    (hb : s.button_pressed = true) : check_button_body bt inf r mac j s = s := by
  unfold check_button_body
  simp [hb]

theorem check_movement_sensor_body_signals (l r : Bool) (mac : List Nat) (j : Bool)
    (s : Sys) : SameSignals s (check_movement_sensor_body l r mac j s) := by
  unfold check_movement_sensor_body SameSignals
  cases l <;> by_cases h2 : s.s_route_table_size ≠ 0 ∧ r = false <;> cases j <;> simp [h2]

theorem check_movement_sensor_body_flag (l r : Bool) (mac : List Nat) (j : Bool) (s : Sys) :
    (check_movement_sensor_body l r mac j s).button_pressed = s.button_pressed := by
  unfold check_movement_sensor_body
  cases l <;> by_cases h2 : s.s_route_table_size ≠ 0 ∧ r = false <;> cases j <;> simp [h2]

theorem recv_cb_some (d : mesh_data_t) (s t : Sys) (o : RecvOutcome)
    (h : recv_cb d s = some (o, t)) :
    t = s ∨ ∃ (n : Nat) (table : List Nat),
      t = { s with s_route_table_size := (n : Int), s_route_table := table } ∧
      table.length = s.s_route_table.length ∧ 6 * n ≤ table.length := by
  unfold recv_cb at h
  by_cases h1 : d.data.getD 0 0 = CMD_ROUTE_TABLE
  · rw [if_pos h1] at h
    by_cases h2 : s.s_route_table_lock = false ∨ ((d.size : Int) - 1).tmod 6 ≠ 0
    · dsimp only at h
      rw [if_pos h2] at h
      exact Or.inl (congrArg Prod.snd (Option.some.inj h)).symm
    · dsimp only at h
      rw [if_neg h2] at h
      have hm : ((d.size : Int) - 1).tmod 6 = 0 := by
        by_contra hne
        exact h2 (Or.inr hne)
      have hpos : 1 ≤ d.size := by
        by_contra hneg
        have hz : d.size = 0 := by omega
        rw [hz] at hm
        exact absurd hm (by decide)
      have hcast : ((d.size : Int) - 1) = ((d.size - 1 : Nat) : Int) := by omega
      rw [hcast] at h hm
      rw [Int.toNat_ofNat] at h
      have hdiv : ((d.size - 1 : Nat) : Int).tdiv 6 = (((d.size - 1) / 6 : Nat) : Int) := by
        rw [show (6 : Int) = ((6 : Nat) : Int) from rfl, ← Int.ofNat_tdiv]
      rw [hdiv] at h
      unfold memcpy at h
      by_cases h3 : 0 + (d.size - 1) ≤ s.s_route_table.length ∧
          d.size - 1 ≤ (d.data.drop 1).length
      · rw [if_pos h3] at h
        have ht := (congrArg Prod.snd (Option.some.inj h)).symm
        have h3l := h3
        simp only [List.length_drop] at h3l
        refine Or.inr ⟨(d.size - 1) / 6, _, ht, ?_, ?_⟩
        · simp only [List.take_zero, List.nil_append, List.length_append, List.length_take,
            List.length_drop]
          omega
        · simp only [List.take_zero, List.nil_append, List.length_append, List.length_take,
            List.length_drop]
          omega
      · rw [if_neg h3] at h
        cases h
  · rw [if_neg h1] at h
    exact Or.inl (congrArg Prod.snd (Option.some.inj h)).symm

theorem recv_cb_none (d : mesh_data_t) (s : Sys) (h : recv_cb d s = none) :
    d.data.getD 0 0 = CMD_ROUTE_TABLE ∧ s.s_route_table_lock = true ∧
    ((d.size : Int) - 1).tmod 6 = 0 ∧
    memcpy s.s_route_table 0 (d.data.drop 1) ((d.size : Int) - 1).toNat = none := by
  unfold recv_cb at h
  by_cases h1 : d.data.getD 0 0 = CMD_ROUTE_TABLE
  · rw [if_pos h1] at h
    by_cases h2 : s.s_route_table_lock = false ∨ ((d.size : Int) - 1).tmod 6 ≠ 0
    · dsimp only at h
      rw [if_pos h2] at h
      cases h
    · dsimp only at h
      rw [if_neg h2] at h
      refine ⟨h1, ?_, ?_, ?_⟩
      · rcases Bool.eq_false_or_eq_true s.s_route_table_lock with hl | hl
        · exact hl
        · exact absurd (Or.inl hl) h2
      · by_contra hne
        exact h2 (Or.inr hne)
      · cases hm : memcpy s.s_route_table 0 (d.data.drop 1) ((d.size : Int) - 1).toNat with
        | none => rfl
        | some table => rw [hm] at h; cases h
  · rw [if_neg h1] at h
    cases h

theorem recv_cb_signals (d : mesh_data_t) (s t : Sys) (o : RecvOutcome)
    (h : recv_cb d s = some (o, t)) : SameSignals s t := by
  rcases recv_cb_some d s t o h with rfl | ⟨n, table, rfl, -, -⟩ <;>
    exact ⟨rfl, rfl, rfl, rfl, rfl, rfl, rfl, rfl, rfl, rfl, rfl⟩

theorem recv_cb_flag (d : mesh_data_t) (s t : Sys) (o : RecvOutcome)
    (h : recv_cb d s = some (o, t)) :
    t.button_pressed = s.button_pressed ∧ t.mesh_tx = s.mesh_tx ∧ t.mqtt_tx = s.mqtt_tx := by
  rcases recv_cb_some d s t o h with rfl | ⟨n, table, rfl, -, -⟩ <;>
    exact ⟨rfl, rfl, rfl⟩

/-! ## Phase engine: safety invariant -/

theorem safeInv_startup (cap : Nat) : SafeInv (startup cap) :=
  Or.inl ⟨rfl, rfl, rfl, rfl⟩

theorem safeInv_phase_step (s : Sys) (h : SafeInv s) : SafeInv (phase_step s) := by
  cases hb : s.button_pressed
  · rw [phase_step_idle s hb]
    rcases h with ⟨h0, hp, -, -⟩ | ⟨h0, hp, -, -⟩ | ⟨-, hb2, -, -⟩
    · exact Or.inl ⟨h0, hp, rfl, rfl⟩
    · exact Or.inr (Or.inl ⟨h0, hp, rfl, rfl⟩)
    · rw [hb] at hb2; cases hb2
  · rcases h with ⟨h0, hp, h1, h2⟩ | ⟨h0, hp, h1, h2⟩ | ⟨h0, -, h1, h2⟩
    · by_cases ht : s.timer = 0
      · rw [phase_step_green_go s hb h0 ht]
        exact Or.inr (Or.inl ⟨rfl, rfl, h1, h2⟩)
      · rw [phase_step_green_wait s hb h0 (by omega)]
        exact Or.inl ⟨h0, hp, h1, h2⟩
    · by_cases ht : s.timer = 0
      · rw [phase_step_yellow_go s hb h0 ht]
        exact Or.inr (Or.inr ⟨rfl, hb, rfl, rfl⟩)
      · rw [phase_step_yellow_wait s hb h0 (by omega)]
        exact Or.inr (Or.inl ⟨h0, hp, h1, h2⟩)
    · by_cases ht : s.timer = 0
      · rw [phase_step_red_go s hb h0 ht]
        exact Or.inl ⟨rfl, rfl, rfl, rfl⟩
      · by_cases h5 : s.timer ≤ 5
        · cases hp : s.ped_color_pos
          · rw [phase_step_red_blink_from_green s hb h0 (by omega) h5 hp]
            exact Or.inr (Or.inr ⟨h0, hb, h1, h2⟩)
          · rw [phase_step_red_blink_from_red s hb h0 (by omega) h5 hp]
            exact Or.inr (Or.inr ⟨h0, hb, h1, h2⟩)
        · rw [phase_step_red_hold s hb h0 (by omega)]
          exact Or.inr (Or.inr ⟨h0, hb, h1, h2⟩)

theorem safeInv_publish_step (j : Bool) (s : Sys) (h : SafeInv s) :
    SafeInv (publish_step j s) := by
  rw [publish_step_eq]
  exact h

theorem safeInv_of_sameSignals (s t : Sys) (hs : SameSignals s t)
    (hb : s.button_pressed = true → t.button_pressed = true) (h : SafeInv s) :
    SafeInv t := by
  obtain ⟨c, p, -, -, s0, s1, -, -, l3, -, p2⟩ := hs
  unfold SafeInv at h ⊢
  rw [c, p, s0, s1, l3, p2]
  rcases h with h | h | ⟨h0, hb2, h1, h2⟩
  · exact Or.inl h
  · exact Or.inr (Or.inl h)
  · exact Or.inr (Or.inr ⟨h0, hb hb2, h1, h2⟩)

theorem safeInv_step (s : Sys) (e : Event) (t : Sys) (h : SafeInv s)
    (hst : step s e = some t) : SafeInv t := by
  cases e with
  | tick j =>
    have ht : traffic_light_control_body j s = t := Option.some.inj hst
    rw [← ht]
    exact safeInv_publish_step j _ (safeInv_phase_step s h)
  | button_poll bt inf r mac j =>
    have ht : check_button_body bt inf r mac j s = t := Option.some.inj hst
    rw [← ht]
    refine safeInv_of_sameSignals s _ (check_button_body_signals bt inf r mac j s) ?_ h
    intro hb
    rw [check_button_body_flag, hb]; rfl
  | movement_poll l r mac j =>
    have ht : check_movement_sensor_body l r mac j s = t := Option.some.inj hst
    rw [← ht]
    refine safeInv_of_sameSignals s _ (check_movement_sensor_body_signals l r mac j s) ?_ h
    intro hb
    rw [check_movement_sensor_body_flag, hb]
  | recv d =>
    obtain ⟨o, ho⟩ := step_recv d s t hst
    refine safeInv_of_sameSignals s _ (recv_cb_signals d s t o ho) ?_ h
    intro hb
    rw [(recv_cb_flag d s t o ho).1, hb]

theorem safeInv_run (es : List Event) (s t : Sys) (h : SafeInv s)
    (hr : run es s = some t) : SafeInv t :=
  run_invariant SafeInv (fun s e t hs hst => safeInv_step s e t hs hst) es s t h hr

/-- C3 (mutual exclusivity).  In every state reachable from start-up by engine
ticks, sensor polls and deliveries to `recv_cb` with a defined result, in any
order, the colours last driven on the vehicle and on the pedestrian signal are
not both green, the vehicle-green and pedestrian-green outputs are not both
high, and the mirror never has `color_pos = 0` together with
`ped_color_pos = 0`. -/
theorem mutual_exclusivity (cap : Nat) (s : Sys) (h : Reachable cap s) :
    ¬ (s.state0 = TRAFFIC_LIGHT_GREEN ∧ s.state1 = TRAFFIC_LIGHT_GREEN) ∧
    ¬ (s.LED_PIN_3 = 1 ∧ s.PED_LED_PIN_2 = 1) ∧
    ¬ (s.color_pos = 0 ∧ s.ped_color_pos = false) := by
  obtain ⟨es, hr⟩ := h
  have hi := safeInv_run es (startup cap) s (safeInv_startup cap) hr
  rcases hi with ⟨h0, hp, h1, h2⟩ | ⟨h0, hp, h1, h2⟩ | ⟨h0, hb, h1, h2⟩
  · refine ⟨?_, ?_, ?_⟩
    · rintro ⟨-, hg⟩; rw [h1] at hg; exact absurd hg (by decide)
    · rintro ⟨-, hg⟩; rw [h2] at hg; exact absurd hg (by decide)
    · rintro ⟨-, hg⟩; rw [hp] at hg; exact absurd hg (by decide)
  · refine ⟨?_, ?_, ?_⟩
    · rintro ⟨-, hg⟩; rw [h1] at hg; exact absurd hg (by decide)
    · rintro ⟨-, hg⟩; rw [h2] at hg; exact absurd hg (by decide)
    · rintro ⟨hg, -⟩; rw [h0] at hg; exact absurd hg (by decide)
  · refine ⟨?_, ?_, ?_⟩
    · rintro ⟨hg, -⟩; rw [h1] at hg; exact absurd hg (by decide)
    · rintro ⟨hg, -⟩; rw [h2] at hg; exact absurd hg (by decide)
    · rintro ⟨hg, -⟩; rw [h0] at hg; exact absurd hg (by decide)

theorem mutual_exclusivity_witness :
    Reachable 2 red_entered ∧
    ¬ (red_entered.state0 = TRAFFIC_LIGHT_GREEN ∧ red_entered.state1 = TRAFFIC_LIGHT_GREEN) :=
  ⟨⟨Event.button_poll true true true [] true :: List.replicate 5 (Event.tick true), rfl⟩,
    (mutual_exclusivity 2 red_entered
      ⟨Event.button_poll true true true [] true :: List.replicate 5 (Event.tick true),
        rfl⟩).1⟩

/-! ## Request flag -/

theorem phase_step_flag_cleared (s : Sys) (hb : s.button_pressed = true)
    (hc : (phase_step s).button_pressed = false) :
    s.color_pos = 2 ∧ s.timer = 0 ∧ (phase_step s).color_pos = 0 := by
  by_cases h0 : s.color_pos = 0
  · by_cases ht : s.timer = 0
    · rw [phase_step_green_go s hb h0 ht] at hc
      exact absurd (hb.symm.trans hc) (by decide)
    · rw [phase_step_green_wait s hb h0 (by omega)] at hc
      exact absurd (hb.symm.trans hc) (by decide)
  · by_cases h1 : s.color_pos = 1
    · by_cases ht : s.timer = 0
      · rw [phase_step_yellow_go s hb h1 ht] at hc
        exact absurd (hb.symm.trans hc) (by decide)
      · rw [phase_step_yellow_wait s hb h1 (by omega)] at hc
        exact absurd (hb.symm.trans hc) (by decide)
    · by_cases h2 : s.color_pos = 2
      · by_cases ht : s.timer = 0
        · refine ⟨h2, ht, ?_⟩
          rw [phase_step_red_go s hb h2 ht]
        · by_cases h5 : s.timer ≤ 5
          · cases hp : s.ped_color_pos
            · rw [phase_step_red_blink_from_green s hb h2 (by omega) h5 hp] at hc
              exact absurd (hb.symm.trans hc) (by decide)
            · rw [phase_step_red_blink_from_red s hb h2 (by omega) h5 hp] at hc
              exact absurd (hb.symm.trans hc) (by decide)
          · rw [phase_step_red_hold s hb h2 (by omega)] at hc
            exact absurd (hb.symm.trans hc) (by decide)
      · rw [phase_step_other s hb h0 h1 h2] at hc
        exact absurd (hb.symm.trans hc) (by decide)

theorem publish_step_flag (j : Bool) (s : Sys) :
    (publish_step j s).button_pressed = s.button_pressed ∧
    (publish_step j s).color_pos = s.color_pos ∧
    (publish_step j s).timer = s.timer := by
  rw [publish_step_eq]
  exact ⟨rfl, rfl, rfl⟩

/-- C4 (request latching).  While the request flag is set, a step of the
system with a defined result (engine tick, sensor poll, movement poll,
delivery to `recv_cb`) clears it only if the step is an engine tick taken with
`color_pos = 2` and countdown 0, and that tick returns the engine to
`color_pos = 0`; a button poll taken while the flag is set, whatever the
levels read, leaves the whole state, so the flag, the phase and the countdown,
as it was.  The only step without a defined result is the delivery of a route
advertisement that passes the size check and whose copy leaves the table. -/
theorem request_latching (s t : Sys) (e : Event) (hb : s.button_pressed = true)
    (hst : step s e = some t) :
    (t.button_pressed = false →
      (∃ j, e = Event.tick j) ∧ s.color_pos = 2 ∧ s.timer = 0 ∧ t.color_pos = 0) ∧
    (∀ (bt inf r : Bool) (mac : List Nat) (j : Bool),
      step s (Event.button_poll bt inf r mac j) = some s) ∧
    (∀ e2, step s e2 = none →
      ∃ d, e2 = Event.recv d ∧ d.data.getD 0 0 = CMD_ROUTE_TABLE ∧
        s.s_route_table_lock = true ∧ ((d.size : Int) - 1).tmod 6 = 0 ∧
        memcpy s.s_route_table 0 (d.data.drop 1) ((d.size : Int) - 1).toNat = none) := by
  refine ⟨?_, ?_, ?_⟩
  · intro hc
    cases e with
    | tick j =>
      have ht : traffic_light_control_body j s = t := Option.some.inj hst
      rw [← ht] at hc ⊢
      have hp := publish_step_flag j (phase_step s)
      have hc2 : (phase_step s).button_pressed = false := by
        rw [← hp.1]; exact hc
      obtain ⟨h2, ht0, h0⟩ := phase_step_flag_cleared s hb hc2
      refine ⟨⟨j, rfl⟩, h2, ht0, ?_⟩
      show (publish_step j (phase_step s)).color_pos = 0
      rw [hp.2.1, h0]
    | button_poll bt inf r mac j =>
      have ht : check_button_body bt inf r mac j s = t := Option.some.inj hst
      rw [← ht, check_button_body_flag, hb] at hc
      exact absurd hc (by simp)
    | movement_poll l r mac j =>
      have ht : check_movement_sensor_body l r mac j s = t := Option.some.inj hst
      rw [← ht, check_movement_sensor_body_flag, hb] at hc
      exact absurd hc (by decide)
    | recv d =>
      obtain ⟨o, ho⟩ := step_recv d s t hst
      rw [(recv_cb_flag d s t o ho).1, hb] at hc
      exact absurd hc (by decide)
  · intro bt inf r mac j
    show some (check_button_body bt inf r mac j s) = some s
    rw [check_button_body_pending bt inf r mac j s hb]
  · intro e2 hn
    cases e2 with
    | tick j => cases hn
    | button_poll bt inf r mac j => cases hn
    | movement_poll l r mac j => cases hn
    | recv d =>
      have hr : recv_cb d s = none := by
        have h2 : (recv_cb d s).map Prod.snd = none := hn
        cases hrc : recv_cb d s with
        | none => rfl
        | some p => rw [hrc] at h2; cases h2
      exact ⟨d, rfl, recv_cb_none d s hr⟩

theorem request_latching_witness :
    red_expired.button_pressed = true ∧
    step red_expired (Event.tick true) = some (traffic_light_control_body true red_expired) ∧
    (traffic_light_control_body true red_expired).button_pressed = false ∧
    red_expired.color_pos = 2 ∧ red_expired.timer = 0 ∧
    (traffic_light_control_body true red_expired).color_pos = 0 ∧
    step red_expired (Event.button_poll true true true [] true) = some red_expired :=
  have h := request_latching red_expired (traffic_light_control_body true red_expired)
    (Event.tick true) (by decide) rfl
  have h1 := h.1 (by decide)
  ⟨by decide, rfl, by decide, h1.2.1, h1.2.2.1, h1.2.2.2, h.2.1 true true true [] true⟩

/-! ## Inbound button frames -/

/-- C6, as stated, fails: at start-up (no request pending) a ButtonPressed
frame, tag `0x55`, six address bytes and the value 1, handed to `recv_cb`
leaves the whole state as it was, so the request flag stays clear and the next
engine tick still takes the idle branch. -/
theorem button_frame_sets_flag_counterexample :
    (startup 2).button_pressed = false ∧
    recv_cb { data := [0x55, 0x24, 0x0a, 0xc4, 0x01, 0x02, 0x03, 1], size := 8 } (startup 2)
      = some (RecvOutcome.no_case, startup 2) ∧
    (recv_cb { data := [0x55, 0x24, 0x0a, 0xc4, 0x01, 0x02, 0x03, 1], size := 8 }
      (startup 2)).map (fun r => r.2.button_pressed) = some false ∧
    (recv_cb { data := [0x55, 0x24, 0x0a, 0xc4, 0x01, 0x02, 0x03, 1], size := 8 }
      (startup 2)).map (fun r => traffic_light_control_body true r.2)
      = some (traffic_light_control_body true (startup 2)) := by
  decide

/-- C6, amended.  A frame whose tag is `CMD_BUTTON_PRESSED` falls through the
`switch` of `recv_cb`: the whole state, the request flag included, is left as
it was, so the next engine tick acts as if no frame had arrived.  The flag is
set by the node's own button poll: after `check_button_body` it is set exactly
when it was set before, or the button level is high, or the infrared level is
low. -/
theorem button_frame_ignored (s : Sys) (payload : List Nat) (n : Nat) (j : Bool)
    (bt inf r : Bool) (mac : List Nat) :
    recv_cb { data := CMD_BUTTON_PRESSED :: payload, size := n } s
      = some (RecvOutcome.no_case, s) ∧
    step s (Event.recv { data := CMD_BUTTON_PRESSED :: payload, size := n }) = some s ∧
    (recv_cb { data := CMD_BUTTON_PRESSED :: payload, size := n } s).map
        (fun r => traffic_light_control_body j r.2)
      = some (traffic_light_control_body j s) ∧
    (check_button_body bt inf r mac j s).button_pressed
      = (s.button_pressed || (bt || !inf)) := by
  have h : recv_cb { data := CMD_BUTTON_PRESSED :: payload, size := n } s
      = some (RecvOutcome.no_case, s) := by
    have hne : CMD_BUTTON_PRESSED ≠ CMD_ROUTE_TABLE := by decide
    simp only [recv_cb, List.getD_cons_zero, hne, if_false]
  refine ⟨h, ?_, by rw [h]; rfl, check_button_body_flag bt inf r mac j s⟩
  show (recv_cb { data := CMD_BUTTON_PRESSED :: payload, size := n } s).map Prod.snd = some s
  rw [h]
  rfl

/-! ## Phase engine: countdowns -/

theorem tick_wait (j : Bool) (s : Sys) (hb : s.button_pressed = true)
    (hc : s.color_pos = 0 ∨ s.color_pos = 1 ∨ s.color_pos = 2) (ht : 0 < s.timer) :
    (traffic_light_control_body j s).button_pressed = true ∧
    (traffic_light_control_body j s).color_pos = s.color_pos ∧
    (traffic_light_control_body j s).timer = s.timer - 1 := by
  unfold traffic_light_control_body
  rw [publish_step_eq]
  show (phase_step s).button_pressed = true ∧ (phase_step s).color_pos = s.color_pos ∧
    (phase_step s).timer = s.timer - 1
  rcases hc with h0 | h1 | h2
  · rw [phase_step_green_wait s hb h0 ht]
    exact ⟨hb, rfl, rfl⟩
  · rw [phase_step_yellow_wait s hb h1 ht]
    exact ⟨hb, rfl, rfl⟩
  · by_cases h5 : s.timer ≤ 5
    · cases hp : s.ped_color_pos
      · rw [phase_step_red_blink_from_green s hb h2 ht h5 hp]
        exact ⟨hb, rfl, rfl⟩
      · rw [phase_step_red_blink_from_red s hb h2 ht h5 hp]
        exact ⟨hb, rfl, rfl⟩
    · rw [phase_step_red_hold s hb h2 (by omega)]
      exact ⟨hb, rfl, rfl⟩

theorem ticks_cons (j : Bool) (js : List Bool) (s : Sys) :
    ticks (j :: js) s = ticks js (traffic_light_control_body j s) := rfl

theorem ticks_append (js ks : List Bool) (s : Sys) :
    ticks (js ++ ks) s = ticks ks (ticks js s) := by
  unfold ticks
  rw [List.foldl_append]

theorem ticks_countdown (js : List Bool) (s : Sys) (r : Nat)
    (hb : s.button_pressed = true)
    (hc : s.color_pos = 0 ∨ s.color_pos = 1 ∨ s.color_pos = 2)
    (ht : s.timer = js.length + r) :
    (ticks js s).button_pressed = true ∧ (ticks js s).color_pos = s.color_pos ∧
    (ticks js s).timer = r := by
  induction js generalizing s with
  | nil => exact ⟨hb, rfl, by simpa using ht⟩
  | cons j js ih =>
    rw [ticks_cons]
    have hlen : (j :: js).length = js.length + 1 := rfl
    obtain ⟨hb1, hc1, ht1⟩ := tick_wait j s hb hc (by omega)
    have := ih (traffic_light_control_body j s) hb1 (by rw [hc1]; exact hc) (by omega)
    rw [hc1] at this
    exact this

theorem tick_green_go (j : Bool) (s : Sys) (hb : s.button_pressed = true)
    (hc : s.color_pos = 0) (ht : s.timer = 0) :
    (traffic_light_control_body j s).button_pressed = true ∧
    (traffic_light_control_body j s).color_pos = 1 ∧
    (traffic_light_control_body j s).timer = 3 := by
  unfold traffic_light_control_body
  rw [publish_step_eq, phase_step_green_go s hb hc ht]
  exact ⟨hb, rfl, rfl⟩

theorem tick_yellow_go (j : Bool) (s : Sys) (hb : s.button_pressed = true)
    (hc : s.color_pos = 1) (ht : s.timer = 0) :
    (traffic_light_control_body j s).button_pressed = true ∧
    (traffic_light_control_body j s).color_pos = 2 ∧
    (traffic_light_control_body j s).timer = 15 ∧
    (traffic_light_control_body j s).ped_color_pos = false ∧
    (traffic_light_control_body j s).state0 = TRAFFIC_LIGHT_RED ∧
    (traffic_light_control_body j s).state1 = TRAFFIC_LIGHT_GREEN := by
  unfold traffic_light_control_body
  rw [publish_step_eq, phase_step_yellow_go s hb hc ht]
  exact ⟨hb, rfl, rfl, rfl, rfl, rfl⟩

theorem tick_red_go (j : Bool) (s : Sys) (hb : s.button_pressed = true)
    (hc : s.color_pos = 2) (ht : s.timer = 0) :
    (traffic_light_control_body j s).button_pressed = false ∧
    (traffic_light_control_body j s).color_pos = 0 ∧
    (traffic_light_control_body j s).timer = 10 ∧
    (traffic_light_control_body j s).ped_color_pos = true ∧
    (traffic_light_control_body j s).state0 = TRAFFIC_LIGHT_GREEN ∧
    (traffic_light_control_body j s).state1 = TRAFFIC_LIGHT_RED := by
  unfold traffic_light_control_body
  rw [publish_step_eq, phase_step_red_go s hb hc ht]
  exact ⟨rfl, rfl, rfl, rfl, rfl, rfl⟩

/-! ## Phase engine: cycle timing -/

/-- C7, as stated, fails: from the state that has just entered the red phase,
`color_pos = 2` with countdown 15 and the request pending, 15 ticks later the
engine is still in the red phase, countdown 0, with the request flag set. -/
theorem phase_monotonicity_counterexample :
    red_entered.color_pos = 2 ∧ red_entered.timer = 15 ∧
    red_entered.button_pressed = true ∧
    (ticks (List.replicate 15 true) red_entered).color_pos = 2 ∧
    (ticks (List.replicate 15 true) red_entered).timer = 0 ∧
    (ticks (List.replicate 15 true) red_entered).button_pressed = true := by
  decide

/-- C7, amended.  From `color_pos = 2` with countdown 15 and the request
pending, with engine ticks only, the engine stays in the red phase with the
flag set through the first 15 ticks, the 15th leaving countdown 0; the 16th
tick returns it to `color_pos = 0` with countdown 10, clears the request flag
and drives vehicle green, pedestrian red. -/
theorem red_phase_sixteen_ticks (s : Sys) (js : List Bool) (j : Bool)
    (hb : s.button_pressed = true) (hc : s.color_pos = 2) (ht : s.timer = 15)
    (hl : js.length = 15) :
    (∀ k, k ≤ 15 →
      (ticks (js.take k) s).color_pos = 2 ∧ (ticks (js.take k) s).button_pressed = true ∧
      (ticks (js.take k) s).timer = 15 - k) ∧
    (ticks js s).color_pos = 2 ∧ (ticks js s).timer = 0 ∧
    (ticks js s).button_pressed = true ∧
    (ticks (js ++ [j]) s).color_pos = 0 ∧ (ticks (js ++ [j]) s).timer = 10 ∧
    (ticks (js ++ [j]) s).button_pressed = false ∧
    (ticks (js ++ [j]) s).state0 = TRAFFIC_LIGHT_GREEN ∧
    (ticks (js ++ [j]) s).state1 = TRAFFIC_LIGHT_RED := by
  have hpre : ∀ k, k ≤ 15 →
      (ticks (js.take k) s).color_pos = 2 ∧ (ticks (js.take k) s).button_pressed = true ∧
      (ticks (js.take k) s).timer = 15 - k := by
    intro k hk
    have hlen : (js.take k).length = k := by
      rw [List.length_take]; omega
    obtain ⟨h1, h2, h3⟩ := ticks_countdown (js.take k) s (15 - k) hb (Or.inr (Or.inr hc))
      (by rw [hlen, ht]; omega)
    exact ⟨h2.trans hc, h1, h3⟩
  have h15 := hpre 15 (Nat.le_refl _)
  rw [List.take_of_length_le (by omega)] at h15
  obtain ⟨c15, b15, t15⟩ := h15
  have hgo := tick_red_go j (ticks js s) b15 c15 (by omega)
  rw [ticks_append]
  exact ⟨hpre, c15, by omega, b15, hgo.2.1, hgo.2.2.1, hgo.1, hgo.2.2.2.2.1, hgo.2.2.2.2.2⟩

theorem red_phase_sixteen_ticks_witness :
    red_entered.button_pressed = true ∧ red_entered.color_pos = 2 ∧
    red_entered.timer = 15 ∧ (List.replicate 15 true).length = 15 ∧
    (ticks (List.replicate 15 true) red_entered).color_pos = 2 ∧
    (ticks (List.replicate 15 true ++ [true]) red_entered).color_pos = 0 ∧
    (ticks (List.replicate 15 true ++ [true]) red_entered).button_pressed = false :=
  have h := red_phase_sixteen_ticks red_entered (List.replicate 15 true) true
    (by decide) (by decide) (by decide) (by decide)
  ⟨by decide, by decide, by decide, by decide, h.2.1, h.2.2.2.2.1, h.2.2.2.2.2.2.1⟩

/-- C5, as stated, fails: at start-up the engine idles in `color_pos = 0`
with no request and countdown 0; once a button poll has set the flag the
engine is in the yellow phase after 1 tick, in the red phase (not yellow)
after 10 ticks, in the red phase with countdown 7 (not 15) after 13 ticks,
and the request flag is cleared by tick 21, not tick 28. -/
theorem cycle_timing_counterexample :
    (startup 2).button_pressed = false ∧ (startup 2).color_pos = 0 ∧
    (ticks (List.replicate 1 true)
      (check_button_body true true true [] true (startup 2))).color_pos = 1 ∧
    (ticks (List.replicate 10 true)
      (check_button_body true true true [] true (startup 2))).color_pos = 2 ∧
    (ticks (List.replicate 13 true)
      (check_button_body true true true [] true (startup 2))).timer = 7 ∧
    (ticks (List.replicate 20 true)
      (check_button_body true true true [] true (startup 2))).button_pressed = true ∧
    (ticks (List.replicate 21 true)
      (check_button_body true true true [] true (startup 2))).button_pressed = false ∧
    (ticks (List.replicate 21 true)
      (check_button_body true true true [] true (startup 2))).color_pos = 0 := by
  decide

theorem ticks_split_last (js : List Bool) (n : Nat) (h : js.length = n + 1) :
    ∃ j, js = js.take n ++ [j] := by
  have hd : (js.drop n).length = 1 := by rw [List.length_drop]; omega
  match hjs : js.drop n, hd with
  | [j], _ =>
    refine ⟨j, ?_⟩
    rw [← hjs, List.take_append_drop]

theorem phase_segment (s : Sys) (js : List Bool) (hb : s.button_pressed = true)
    (hc : s.color_pos = 0 ∨ s.color_pos = 1 ∨ s.color_pos = 2)
    (hl : js.length = s.timer + 1) :
    (∀ k, k ≤ s.timer →
      (ticks (js.take k) s).button_pressed = true ∧
      (ticks (js.take k) s).color_pos = s.color_pos ∧
      (ticks (js.take k) s).timer = s.timer - k) ∧
    ∃ j, ticks js s = traffic_light_control_body j (ticks (js.take s.timer) s) := by
  constructor
  · intro k hk
    have hlen : (js.take k).length = k := by
      rw [List.length_take]; omega
    exact ticks_countdown (js.take k) s (s.timer - k) hb hc (by rw [hlen]; omega)
  · obtain ⟨j, hj⟩ := ticks_split_last js s.timer hl
    refine ⟨j, ?_⟩
    conv_lhs => rw [hj]
    rw [ticks_append]
    rfl

/-- C5, amended.  Let the engine idle in `color_pos = 0` with no request and
countdown `t`, and let a button poll that reads the button high or the
infrared low set the flag.  With engine ticks only, the engine stays in the
green phase for `t` ticks and enters the yellow phase, countdown 3, on tick
`t + 1`; it stays there for 3 ticks and enters the red phase, countdown 15,
vehicle red and pedestrian green, on tick `t + 5`; it stays there with the
flag set for 15 ticks and on tick `t + 21` is back in `color_pos = 0` with
countdown 10 and the request flag cleared. -/
theorem cycle_timing (s : Sys) (bt inf r : Bool) (mac : List Nat) (j : Bool)
    (js1 js2 js3 : List Bool)
    (hb : s.button_pressed = false) (hc : s.color_pos = 0) (hp : bt = true ∨ inf = false)
    (h1 : js1.length = s.timer + 1) (h2 : js2.length = 4) (h3 : js3.length = 16) :
    (check_button_body bt inf r mac j s).button_pressed = true ∧
    (∀ k, k ≤ s.timer →
      (ticks (js1.take k) (check_button_body bt inf r mac j s)).color_pos = 0) ∧
    (ticks js1 (check_button_body bt inf r mac j s)).color_pos = 1 ∧
    (ticks js1 (check_button_body bt inf r mac j s)).timer = 3 ∧
    (∀ k, k ≤ 3 →
      (ticks (js1 ++ js2.take k) (check_button_body bt inf r mac j s)).color_pos = 1) ∧
    (ticks (js1 ++ js2) (check_button_body bt inf r mac j s)).color_pos = 2 ∧
    (ticks (js1 ++ js2) (check_button_body bt inf r mac j s)).timer = 15 ∧
    (ticks (js1 ++ js2) (check_button_body bt inf r mac j s)).state0 = TRAFFIC_LIGHT_RED ∧
    (ticks (js1 ++ js2) (check_button_body bt inf r mac j s)).state1 = TRAFFIC_LIGHT_GREEN ∧
    (∀ k, k ≤ 15 →
      (ticks (js1 ++ js2 ++ js3.take k) (check_button_body bt inf r mac j s)).color_pos = 2 ∧
      (ticks (js1 ++ js2 ++ js3.take k)
        (check_button_body bt inf r mac j s)).button_pressed = true) ∧
    (ticks (js1 ++ js2 ++ js3) (check_button_body bt inf r mac j s)).color_pos = 0 ∧
    (ticks (js1 ++ js2 ++ js3) (check_button_body bt inf r mac j s)).timer = 10 ∧
    (ticks (js1 ++ js2 ++ js3) (check_button_body bt inf r mac j s)).button_pressed = false ∧
    (js1 ++ js2 ++ js3).length = s.timer + 21 := by
  have hsig := check_button_body_signals bt inf r mac j s
  have hc0 : (check_button_body bt inf r mac j s).color_pos = 0 := hsig.1.trans hc
  have ht0 : (check_button_body bt inf r mac j s).timer = s.timer := hsig.2.2.1
  have hb0 : (check_button_body bt inf r mac j s).button_pressed = true := by
    rw [check_button_body_flag, hb]
    rcases hp with h | h <;> simp [h]
  generalize check_button_body bt inf r mac j s = s0 at hc0 ht0 hb0 ⊢
  -- green phase
  obtain ⟨g1, jg, g2⟩ := phase_segment s0 js1 hb0 (Or.inl hc0) (by rw [ht0]; exact h1)
  obtain ⟨gb, gc, gt⟩ := g1 s0.timer (Nat.le_refl _)
  have gy := tick_green_go jg (ticks (js1.take s0.timer) s0) gb (gc.trans hc0) (by omega)
  rw [← g2] at gy
  obtain ⟨yb, yc, yt⟩ := gy
  -- yellow phase
  obtain ⟨y1, jy, y2⟩ := phase_segment (ticks js1 s0) js2 yb (Or.inr (Or.inl yc))
    (by rw [yt]; exact h2)
  obtain ⟨yb3, yc3, yt3⟩ := y1 (ticks js1 s0).timer (Nat.le_refl _)
  have yr := tick_yellow_go jy _ yb3 (yc3.trans yc) (by omega)
  rw [← y2, ← ticks_append] at yr
  obtain ⟨rb, rc, rt, -, r0, r1⟩ := yr
  -- red phase
  obtain ⟨r1s, jr, r2⟩ := phase_segment (ticks (js1 ++ js2) s0) js3 rb (Or.inr (Or.inr rc))
    (by rw [rt]; exact h3)
  obtain ⟨rb15, rc15, rt15⟩ := r1s (ticks (js1 ++ js2) s0).timer (Nat.le_refl _)
  have rg := tick_red_go jr _ rb15 (rc15.trans rc) (by omega)
  rw [← r2, ← ticks_append] at rg
  obtain ⟨fb, fc, ft, -, -, -⟩ := rg
  refine ⟨hb0, ?_, yc, yt, ?_, rc, rt, r0, r1, ?_, fc, ft, fb, ?_⟩
  · intro k hk
    exact ((g1 k (by omega)).2.1).trans hc0
  · intro k hk
    rw [ticks_append]
    exact ((y1 k (by omega)).2.1).trans yc
  · intro k hk
    rw [ticks_append]
    have := r1s k (by omega)
    exact ⟨this.2.1.trans rc, this.1⟩
  · simp only [List.length_append, h1, h2, h3]

theorem cycle_timing_witness :
    (startup 2).button_pressed = false ∧ (startup 2).color_pos = 0 ∧
    (List.replicate 1 true).length = (startup 2).timer + 1 ∧
    (ticks (List.replicate 1 true)
      (check_button_body true true true [] true (startup 2))).color_pos = 1 ∧
    (ticks (List.replicate 1 true ++ List.replicate 4 true)
      (check_button_body true true true [] true (startup 2))).color_pos = 2 ∧
    (ticks (List.replicate 1 true ++ List.replicate 4 true ++ List.replicate 16 true)
      (check_button_body true true true [] true (startup 2))).button_pressed = false :=
  have h := cycle_timing (startup 2) true true true [] true (List.replicate 1 true)
    (List.replicate 4 true) (List.replicate 16 true) (by decide) (by decide)
    (Or.inl rfl) (by decide) (by decide) (by decide)
  ⟨by decide, by decide, by decide, h.2.2.1, h.2.2.2.2.2.1, h.2.2.2.2.2.2.2.2.2.2.2.2.1⟩

/-! ## Phase engine: pedestrian signal in the red phase -/

theorem tick_trace_append (js ks : List Bool) (s : Sys) :
    tick_trace (js ++ ks) s = tick_trace js s ++ tick_trace ks (ticks js s) := by
  induction js generalizing s with
  | nil => rfl
  | cons j js ih =>
    show traffic_light_control_body j s :: tick_trace (js ++ ks) _ = _
    rw [ih]
    rfl

theorem tick_red_hold (j : Bool) (s : Sys) (hb : s.button_pressed = true)
    (hc : s.color_pos = 2) (ht : 5 < s.timer) :
    ped_view (traffic_light_control_body j s) = ped_view s := by
  unfold traffic_light_control_body
  rw [publish_step_eq, phase_step_red_hold s hb hc ht]
  rfl

theorem tick_red_blink_from_green (j : Bool) (s : Sys) (hb : s.button_pressed = true)
    (hc : s.color_pos = 2) (ht : 0 < s.timer) (ht5 : s.timer ≤ 5)
    (hp : s.ped_color_pos = false) :
    ped_view (traffic_light_control_body j s) = (TRAFFIC_LIGHT_GREEN, 0, 1, true) := by
  unfold traffic_light_control_body
  rw [publish_step_eq, phase_step_red_blink_from_green s hb hc ht ht5 hp]
  rfl

theorem tick_red_blink_from_red (j : Bool) (s : Sys) (hb : s.button_pressed = true)
    (hc : s.color_pos = 2) (ht : 0 < s.timer) (ht5 : s.timer ≤ 5)
    (hp : s.ped_color_pos = true) :
    ped_view (traffic_light_control_body j s) = (0, 0, 0, false) := by
  unfold traffic_light_control_body
  rw [publish_step_eq, phase_step_red_blink_from_red s hb hc ht ht5 hp]
  rfl

theorem tick_yellow_go_ped (j : Bool) (s : Sys) (hb : s.button_pressed = true)
    (hc : s.color_pos = 1) (ht : s.timer = 0) :
    ped_view (traffic_light_control_body j s) = (TRAFFIC_LIGHT_GREEN, 0, 1, false) := by
  unfold traffic_light_control_body
  rw [publish_step_eq, phase_step_yellow_go s hb hc ht]
  rfl

theorem trace_red_hold (js : List Bool) (s : Sys) (r : Nat)
    (hb : s.button_pressed = true) (hc : s.color_pos = 2)
    (ht : s.timer = js.length + r) (hr : 5 ≤ r) :
    (tick_trace js s).map ped_view = List.replicate js.length (ped_view s) ∧
    ped_view (ticks js s) = ped_view s := by
  induction js generalizing s with
  | nil => exact ⟨rfl, rfl⟩
  | cons j js ih =>
    have hlen : (j :: js).length = js.length + 1 := rfl
    obtain ⟨hb1, hc1, ht1⟩ := tick_wait j s hb (Or.inr (Or.inr hc)) (by omega)
    have hv := tick_red_hold j s hb hc (by omega)
    obtain ⟨i1, i2⟩ := ih (traffic_light_control_body j s) hb1 (hc1.trans hc) (by omega)
    constructor
    · show ped_view (traffic_light_control_body j s) ::
          (tick_trace js (traffic_light_control_body j s)).map ped_view = _
      rw [i1, hv]
      rfl
    · rw [ticks_cons, i2, hv]

theorem trace_red_blink (j5 j4 j3 j2 j1 : Bool) (s : Sys)
    (hb : s.button_pressed = true) (hc : s.color_pos = 2) (ht : s.timer = 5)
    (hp : s.ped_color_pos = false) :
    (tick_trace [j5, j4, j3, j2, j1] s).map ped_view =
      [(TRAFFIC_LIGHT_GREEN, 0, 1, true), (0, 0, 0, false), (TRAFFIC_LIGHT_GREEN, 0, 1, true),
       (0, 0, 0, false), (TRAFFIC_LIGHT_GREEN, 0, 1, true)] := by
  have red : s.color_pos = 0 ∨ s.color_pos = 1 ∨ s.color_pos = 2 := Or.inr (Or.inr hc)
  simp only [tick_trace, List.map]
  -- countdown 5
  obtain ⟨b5, c5, t5⟩ := tick_wait j5 s hb red (by omega)
  have v5 := tick_red_blink_from_green j5 s hb hc (by omega) (by omega) hp
  have p5 : (traffic_light_control_body j5 s).ped_color_pos = true :=
    congrArg (fun v => v.2.2.2) v5
  rw [hc] at c5
  generalize traffic_light_control_body j5 s = s5 at b5 c5 t5 v5 p5 ⊢
  -- countdown 4
  obtain ⟨b4, c4, t4⟩ := tick_wait j4 s5 b5 (Or.inr (Or.inr c5)) (by omega)
  have v4 := tick_red_blink_from_red j4 s5 b5 c5 (by omega) (by omega) p5
  have p4 : (traffic_light_control_body j4 s5).ped_color_pos = false :=
    congrArg (fun v => v.2.2.2) v4
  rw [c5] at c4
  generalize traffic_light_control_body j4 s5 = s4 at b4 c4 t4 v4 p4 ⊢
  -- countdown 3
  obtain ⟨b3, c3, t3⟩ := tick_wait j3 s4 b4 (Or.inr (Or.inr c4)) (by omega)
  have v3 := tick_red_blink_from_green j3 s4 b4 c4 (by omega) (by omega) p4
  have p3 : (traffic_light_control_body j3 s4).ped_color_pos = true :=
    congrArg (fun v => v.2.2.2) v3
  rw [c4] at c3
  generalize traffic_light_control_body j3 s4 = s3 at b3 c3 t3 v3 p3 ⊢
  -- countdown 2
  obtain ⟨b2, c2, t2⟩ := tick_wait j2 s3 b3 (Or.inr (Or.inr c3)) (by omega)
  have v2 := tick_red_blink_from_red j2 s3 b3 c3 (by omega) (by omega) p3
  have p2 : (traffic_light_control_body j2 s3).ped_color_pos = false :=
    congrArg (fun v => v.2.2.2) v2
  rw [c3] at c2
  generalize traffic_light_control_body j2 s3 = s2 at b2 c2 t2 v2 p2 ⊢
  -- countdown 1
  have v1 := tick_red_blink_from_green j1 s2 b2 c2 (by omega) (by omega) p2
  rw [v5, v4, v3, v2, v1]

theorem trace_timer (js : List Bool) (s : Sys) (r : Nat)
    (hb : s.button_pressed = true)
    (hc : s.color_pos = 0 ∨ s.color_pos = 1 ∨ s.color_pos = 2)
    (ht : s.timer = js.length + r) :
    (tick_trace js s).map Sys.timer
      = (List.range js.length).map (fun i => s.timer - 1 - i) := by
  induction js generalizing s with
  | nil => rfl
  | cons j js ih =>
    have hlen : (j :: js).length = js.length + 1 := rfl
    obtain ⟨hb1, hc1, ht1⟩ := tick_wait j s hb hc (by omega)
    have := ih (traffic_light_control_body j s) hb1 (by rw [hc1]; exact hc) (by omega)
    show (traffic_light_control_body j s).timer ::
      (tick_trace js (traffic_light_control_body j s)).map Sys.timer = _
    rw [this, hlen, List.range_succ_eq_map, List.map_cons, List.map_map, ht1]
    congr 1
    apply List.map_congr_left
    intro i _
    show s.timer - 1 - 1 - i = s.timer - 1 - (i + 1)
    omega

/-- C8 (blink pattern), the code at the failing input: the red phase at
countdown 5 with the request pending, reached from start-up by one button poll
and 15 ticks.  The mirror `ped_color_pos` is declared as 1 = red, 0 = green,
and the two transitions around the blink keep it so: the tick that enters the
red phase drives the pedestrian signal green and sets the mirror to 0, the
tick that leaves it drives red and sets the mirror to 1.  The five blink ticks
taken at countdown 5, 4, 3, 2, 1 drive the signal from the mirror before they
toggle it, so they hand `pedestrian_traffic_light_set` green, 0, green, 0,
green while the mirror reads 1, 0, 1, 0, 1: the lamp is green where the mirror
says red and dark where it says green, and it is never driven red; the claimed
sequence red, green, red, green, red is not what the code produces. -/
theorem blink_inverts_mirror :
    red_blink_start.color_pos = 2 ∧ red_blink_start.timer = 5 ∧
    red_blink_start.button_pressed = true ∧
    ped_view (traffic_light_control_body true yellow_expired)
      = (TRAFFIC_LIGHT_GREEN, 0, 1, false) ∧
    ped_view (traffic_light_control_body true red_expired)
      = (TRAFFIC_LIGHT_RED, 1, 0, true) ∧
    (tick_trace (List.replicate 5 true) red_blink_start).map ped_view
      = [(TRAFFIC_LIGHT_GREEN, 0, 1, true), (0, 0, 0, false), (TRAFFIC_LIGHT_GREEN, 0, 1, true),
         (0, 0, 0, false), (TRAFFIC_LIGHT_GREEN, 0, 1, true)] ∧
    (tick_trace (List.replicate 5 true) red_blink_start).map Sys.state1
      ≠ [TRAFFIC_LIGHT_RED, TRAFFIC_LIGHT_GREEN, TRAFFIC_LIGHT_RED, TRAFFIC_LIGHT_GREEN,
          TRAFFIC_LIGHT_RED] := by
  decide

/-- The red phase as the code runs it.  Let a tick taken in the yellow phase
with countdown 0 enter the red phase: it drives the pedestrian signal green,
sets the mirror `ped_color_pos` to 0 and the countdown to 15.  Over the next
15 ticks, taken at countdown 15 down to 1, the pedestrian signal stays green
with the mirror unchanged while the countdown is above 5; the ticks taken at
countdown 5, 4, 3, 2, 1 drive green, 0 (both pedestrian outputs low), green,
0, green, and leave the mirror at 1, 0, 1, 0, 1. -/
theorem blink_pattern (y : Sys) (j0 : Bool) (js : List Bool)
    (hb : y.button_pressed = true) (hc : y.color_pos = 1) (ht : y.timer = 0)
    (hl : js.length = 15) :
    (traffic_light_control_body j0 y).color_pos = 2 ∧
    (traffic_light_control_body j0 y).timer = 15 ∧
    ped_view (traffic_light_control_body j0 y) = (TRAFFIC_LIGHT_GREEN, 0, 1, false) ∧
    (tick_trace js (traffic_light_control_body j0 y)).map Sys.timer
      = [14, 13, 12, 11, 10, 9, 8, 7, 6, 5, 4, 3, 2, 1, 0] ∧
    (tick_trace js (traffic_light_control_body j0 y)).map ped_view
      = List.replicate 10 (TRAFFIC_LIGHT_GREEN, 0, 1, false) ++
        [(TRAFFIC_LIGHT_GREEN, 0, 1, true), (0, 0, 0, false), (TRAFFIC_LIGHT_GREEN, 0, 1, true),
         (0, 0, 0, false), (TRAFFIC_LIGHT_GREEN, 0, 1, true)] := by
  obtain ⟨rb, rc, rt, -, -, -⟩ := tick_yellow_go j0 y hb hc ht
  have rv := tick_yellow_go_ped j0 y hb hc ht
  have rp : (traffic_light_control_body j0 y).ped_color_pos = false :=
    congrArg (fun v => v.2.2.2) rv
  generalize traffic_light_control_body j0 y = s at rb rc rt rv rp ⊢
  have red : s.color_pos = 0 ∨ s.color_pos = 1 ∨ s.color_pos = 2 := Or.inr (Or.inr rc)
  refine ⟨rc, rt, rv, ?_, ?_⟩
  · rw [trace_timer js s 0 rb red (by omega), hl, rt]
    rfl
  · have hsplit : js = js.take 10 ++ js.drop 10 := (List.take_append_drop 10 js).symm
    have htake : (js.take 10).length = 10 := by rw [List.length_take]; omega
    have hdrop : (js.drop 10).length = 5 := by rw [List.length_drop]; omega
    obtain ⟨h1, h2⟩ := trace_red_hold (js.take 10) s 5 rb rc (by omega) (Nat.le_refl _)
    obtain ⟨b10, c10, t10⟩ := ticks_countdown (js.take 10) s 5 rb red (by omega)
    have p10 : (ticks (js.take 10) s).ped_color_pos = false := by
      have := congrArg (fun v => v.2.2.2) h2
      exact this.trans rp
    match hjs : js.drop 10, hdrop with
    | [j5, j4, j3, j2, j1], _ =>
      rw [hsplit, tick_trace_append, List.map_append, h1, htake, rv, hjs]
      rw [trace_red_blink j5 j4 j3 j2 j1 _ b10 (c10.trans rc) t10 p10]

theorem blink_pattern_witness :
    yellow_expired.button_pressed = true ∧ yellow_expired.color_pos = 1 ∧
    yellow_expired.timer = 0 ∧ (List.replicate 15 true).length = 15 ∧
    (tick_trace (List.replicate 15 true) (traffic_light_control_body true yellow_expired)).map
        ped_view
      = List.replicate 10 (TRAFFIC_LIGHT_GREEN, 0, 1, false) ++
        [(TRAFFIC_LIGHT_GREEN, 0, 1, true), (0, 0, 0, false), (TRAFFIC_LIGHT_GREEN, 0, 1, true),
         (0, 0, 0, false), (TRAFFIC_LIGHT_GREEN, 0, 1, true)] :=
  ⟨by decide, by decide, by decide, by decide,
    (blink_pattern yellow_expired true (List.replicate 15 true)
      (by decide) (by decide) (by decide) (by decide)).2.2.2.2⟩

/-! ## Phase engine: all forms of `phase_step` -/

theorem phase_step_forms (s : Sys) :
    (s.button_pressed = false ∧ phase_step s =
      { s with LED_PIN_1 := 0, LED_PIN_2 := 0, LED_PIN_3 := 1, state0 := 0xfd,
               PED_LED_PIN_1 := 1, PED_LED_PIN_2 := 0, state1 := 0xff,
               timer := s.timer - 1 }) ∨
    (s.button_pressed = true ∧ 0 < s.timer ∧
      (s.color_pos = 0 ∨ s.color_pos = 1 ∨ (s.color_pos = 2 ∧ 5 < s.timer)) ∧
      phase_step s = { s with timer := s.timer - 1 }) ∨
    (s.button_pressed = true ∧ s.color_pos = 0 ∧ s.timer = 0 ∧ phase_step s =
      { s with color_pos := 1, ped_color_pos := true, timer := 3,
               LED_PIN_1 := 0, LED_PIN_2 := 1, LED_PIN_3 := 0, state0 := 0xfe,
               can_send := true }) ∨
    (s.button_pressed = true ∧ s.color_pos = 1 ∧ s.timer = 0 ∧ phase_step s =
      { s with color_pos := 2, ped_color_pos := false, timer := 15,
               LED_PIN_1 := 1, LED_PIN_2 := 0, LED_PIN_3 := 0, state0 := 0xff,
               PED_LED_PIN_1 := 0, PED_LED_PIN_2 := 1, state1 := 0xfd,
               can_send := true }) ∨
    (s.button_pressed = true ∧ s.color_pos = 2 ∧ s.timer = 0 ∧ phase_step s =
      { s with color_pos := 0, ped_color_pos := true, timer := 10,
               LED_PIN_1 := 0, LED_PIN_2 := 0, LED_PIN_3 := 1, state0 := 0xfd,
               PED_LED_PIN_1 := 1, PED_LED_PIN_2 := 0, state1 := 0xff,
               button_pressed := false, can_send := true }) ∨
    (s.button_pressed = true ∧ s.color_pos = 2 ∧ 0 < s.timer ∧ s.timer ≤ 5 ∧
      s.ped_color_pos = true ∧ phase_step s =
      { s with PED_LED_PIN_1 := 0, PED_LED_PIN_2 := 0, state1 := 0,
               ped_color_pos := false, timer := s.timer - 1 }) ∨
    (s.button_pressed = true ∧ s.color_pos = 2 ∧ 0 < s.timer ∧ s.timer ≤ 5 ∧
      s.ped_color_pos = false ∧ phase_step s =
      { s with PED_LED_PIN_1 := 0, PED_LED_PIN_2 := 1, state1 := 0xfd,
               ped_color_pos := true, timer := s.timer - 1 }) ∨
    (s.button_pressed = true ∧ s.color_pos ≠ 0 ∧ s.color_pos ≠ 1 ∧ s.color_pos ≠ 2 ∧
      phase_step s = s) := by
  rcases Bool.eq_false_or_eq_true s.button_pressed with hb | hb
  swap
  · exact Or.inl ⟨hb, phase_step_idle s hb⟩
  · right
    by_cases h0 : s.color_pos = 0
    · by_cases ht : s.timer = 0
      · exact Or.inr (Or.inl ⟨hb, h0, ht, phase_step_green_go s hb h0 ht⟩)
      · exact Or.inl ⟨hb, by omega, Or.inl h0, phase_step_green_wait s hb h0 (by omega)⟩
    · by_cases h1 : s.color_pos = 1
      · by_cases ht : s.timer = 0
        · exact Or.inr (Or.inr (Or.inl ⟨hb, h1, ht, phase_step_yellow_go s hb h1 ht⟩))
        · exact Or.inl ⟨hb, by omega, Or.inr (Or.inl h1),
            phase_step_yellow_wait s hb h1 (by omega)⟩
      · by_cases h2 : s.color_pos = 2
        · by_cases ht : s.timer = 0
          · exact Or.inr (Or.inr (Or.inr (Or.inl ⟨hb, h2, ht, phase_step_red_go s hb h2 ht⟩)))
          · by_cases h5 : s.timer ≤ 5
            · rcases Bool.eq_false_or_eq_true s.ped_color_pos with hp | hp
              swap
              · exact Or.inr (Or.inr (Or.inr (Or.inr (Or.inr (Or.inl
                  ⟨hb, h2, by omega, h5, hp,
                    phase_step_red_blink_from_green s hb h2 (by omega) h5 hp⟩)))))
              · exact Or.inr (Or.inr (Or.inr (Or.inr (Or.inl
                  ⟨hb, h2, by omega, h5, hp,
                    phase_step_red_blink_from_red s hb h2 (by omega) h5 hp⟩))))
            · exact Or.inl ⟨hb, by omega, Or.inr (Or.inr ⟨h2, by omega⟩),
                phase_step_red_hold s hb h2 (by omega)⟩
        · exact Or.inr (Or.inr (Or.inr (Or.inr (Or.inr (Or.inr
            ⟨hb, h0, h1, h2, phase_step_other s hb h0 h1 h2⟩)))))

theorem phase_step_frame (s : Sys) :
    (phase_step s).s_route_table = s.s_route_table ∧
    (phase_step s).s_route_table_size = s.s_route_table_size ∧
    (phase_step s).s_route_table_lock = s.s_route_table_lock ∧
    (phase_step s).mesh_tx = s.mesh_tx ∧
    (phase_step s).mqtt_tx = s.mqtt_tx := by
  rcases phase_step_forms s with ⟨-, e⟩ | ⟨-, -, -, e⟩ | ⟨-, -, -, e⟩ | ⟨-, -, -, e⟩ |
    ⟨-, -, -, e⟩ | ⟨-, -, -, -, -, e⟩ | ⟨-, -, -, -, -, e⟩ | ⟨-, -, -, -, e⟩ <;>
  rw [e] <;> exact ⟨rfl, rfl, rfl, rfl, rfl⟩

theorem tick_frame (j : Bool) (s : Sys) :
    (traffic_light_control_body j s).s_route_table = s.s_route_table ∧
    (traffic_light_control_body j s).s_route_table_size = s.s_route_table_size ∧
    (traffic_light_control_body j s).s_route_table_lock = s.s_route_table_lock ∧
    (traffic_light_control_body j s).mesh_tx = s.mesh_tx := by
  unfold traffic_light_control_body
  rw [publish_step_eq]
  obtain ⟨h1, h2, h3, h4, -⟩ := phase_step_frame s
  exact ⟨h1, h2, h3, h4⟩

/-! ## Event sender -/

theorem data_to_send_eq (cmd : Nat) (a : List Nat) (ha : a.length = 6) :
    data_to_send cmd a = [cmd] ++ a ++ [1] := by
  match a, ha with
  | [a1, a2, a3, a4, a5, a6], _ => rfl

theorem check_button_body_tx (bt inf r : Bool) (mac : List Nat) (j : Bool) (s : Sys) :
    (check_button_body bt inf r mac j s).mesh_tx = s.mesh_tx ++
      (if s.button_pressed = false ∧ (bt = true ∨ inf = false) ∧
          s.s_route_table_size ≠ 0 ∧ r = false then
        [(route_entry s 0, { data := data_to_send CMD_BUTTON_PRESSED mac, size := 8 })]
      else []) ∧
    (check_button_body bt inf r mac j s).s_route_table_size = s.s_route_table_size := by
  unfold check_button_body
  dsimp only
  by_cases h1 : s.button_pressed = false ∧ (bt = true ∨ inf = false)
  · by_cases h2 : s.s_route_table_size ≠ 0 ∧ r = false
    · have h3 : s.button_pressed = false ∧ (bt = true ∨ inf = false) ∧
          s.s_route_table_size ≠ 0 ∧ r = false := ⟨h1.1, h1.2, h2.1, h2.2⟩
      rw [if_pos h1, if_pos h2, if_pos h3]
      cases j <;> exact ⟨rfl, rfl⟩
    · have h3 : ¬ (s.button_pressed = false ∧ (bt = true ∨ inf = false) ∧
          s.s_route_table_size ≠ 0 ∧ r = false) := fun h => h2 ⟨h.2.2.1, h.2.2.2⟩
      rw [if_pos h1, if_neg h2, if_neg h3, List.append_nil]
      exact ⟨rfl, rfl⟩
  · have h3 : ¬ (s.button_pressed = false ∧ (bt = true ∨ inf = false) ∧
        s.s_route_table_size ≠ 0 ∧ r = false) := fun h => h1 ⟨h.1, h.2.1⟩
    rw [if_neg h1, if_neg h3, List.append_nil]
    exact ⟨rfl, rfl⟩

theorem check_movement_sensor_body_tx (l r : Bool) (mac : List Nat) (j : Bool) (s : Sys) :
    (check_movement_sensor_body l r mac j s).mesh_tx = s.mesh_tx ++
      (if l = true ∧ s.s_route_table_size ≠ 0 ∧ r = false then
        [(route_entry s 0, { data := data_to_send CMD_MOVEMENT_DETECTED mac, size := 8 })]
      else []) ∧
    (check_movement_sensor_body l r mac j s).s_route_table_size = s.s_route_table_size := by
  unfold check_movement_sensor_body
  dsimp only
  by_cases h1 : l = true
  · by_cases h2 : s.s_route_table_size ≠ 0 ∧ r = false
    · have h3 : l = true ∧ s.s_route_table_size ≠ 0 ∧ r = false := ⟨h1, h2.1, h2.2⟩
      rw [if_pos h1, if_pos h2, if_pos h3]
      cases j <;> exact ⟨rfl, rfl⟩
    · have h3 : ¬ (l = true ∧ s.s_route_table_size ≠ 0 ∧ r = false) := fun h => h2 h.2
      rw [if_pos h1, if_neg h2, if_neg h3, List.append_nil]
      exact ⟨rfl, rfl⟩
  · have h3 : ¬ (l = true ∧ s.s_route_table_size ≠ 0 ∧ r = false) := fun h => h1 h.1
    rw [if_neg h1, if_neg h3, List.append_nil]
    exact ⟨rfl, rfl⟩

theorem check_button_body_table (bt inf r : Bool) (mac : List Nat) (j : Bool) (s : Sys) :
    (check_button_body bt inf r mac j s).s_route_table = s.s_route_table := by
  unfold check_button_body
  dsimp only
  by_cases h1 : s.button_pressed = false ∧ (bt = true ∨ inf = false)
  · by_cases h2 : s.s_route_table_size ≠ 0 ∧ r = false
    · rw [if_pos h1, if_pos h2]
      cases j <;> rfl
    · rw [if_pos h1, if_neg h2]
  · rw [if_neg h1]

theorem check_movement_sensor_body_table (l r : Bool) (mac : List Nat) (j : Bool) (s : Sys) :
    (check_movement_sensor_body l r mac j s).s_route_table = s.s_route_table := by
  unfold check_movement_sensor_body
  dsimp only
  by_cases h1 : l = true
  · by_cases h2 : s.s_route_table_size ≠ 0 ∧ r = false
    · rw [if_pos h1, if_pos h2]
      cases j <;> rfl
    · rw [if_pos h1, if_neg h2]
  · rw [if_neg h1]

theorem tableInv_startup (cap : Nat) : TableInv cap (startup cap) := by
  refine ⟨?_, ?_, ?_⟩
  · show (List.replicate (6 * cap) 0).length = 6 * cap
    exact List.length_replicate _ _
  · show (0 : Int) ≤ 0
    omega
  · show (0 : Int) ≤ (cap : Int)
    omega

theorem tableInv_step (cap : Nat) (s : Sys) (e : Event) (t : Sys) (h : TableInv cap s)
    (hst : step s e = some t) : TableInv cap t := by
  obtain ⟨hl, h0, hc⟩ := h
  cases e with
  | tick j =>
    have ht : traffic_light_control_body j s = t := Option.some.inj hst
    rw [← ht]
    unfold TableInv
    rw [(tick_frame j s).1, (tick_frame j s).2.1]
    exact ⟨hl, h0, hc⟩
  | button_poll bt inf r mac j =>
    have ht : check_button_body bt inf r mac j s = t := Option.some.inj hst
    rw [← ht]
    unfold TableInv
    rw [check_button_body_table, (check_button_body_tx bt inf r mac j s).2]
    exact ⟨hl, h0, hc⟩
  | movement_poll l r mac j =>
    have ht : check_movement_sensor_body l r mac j s = t := Option.some.inj hst
    rw [← ht]
    unfold TableInv
    rw [check_movement_sensor_body_table, (check_movement_sensor_body_tx l r mac j s).2]
    exact ⟨hl, h0, hc⟩
  | recv d =>
    obtain ⟨o, ho⟩ := step_recv d s t hst
    rcases recv_cb_some d s t o ho with rfl | ⟨n, table, rfl, htl, hn⟩
    · exact ⟨hl, h0, hc⟩
    · refine ⟨htl.trans hl, ?_, ?_⟩
      · show (0 : Int) ≤ (n : Int)
        omega
      · show (n : Int) ≤ (cap : Int)
        have : 6 * n ≤ 6 * cap := by rw [← hl, ← htl]; exact hn
        omega

theorem tableInv_reachable (cap : Nat) (s : Sys) (h : Reachable cap s) : TableInv cap s := by
  obtain ⟨es, hr⟩ := h
  exact run_invariant (TableInv cap) (fun s e t hs hst => tableInv_step cap s e t hs hst)
    es (startup cap) s (tableInv_startup cap) hr

/-- C11 (event sender).  For a six-byte own address `a`, `data_to_send` is
`[0x55] ++ a ++ [1]` for the button and `[0x57] ++ a ++ [1]` for the movement
sensor.  In a reachable state a button poll hands exactly that frame, length
8, addressed to route-table entry 0, to the mesh transport when the flag was
clear, the button level is high or the infrared level low, the logical table
length is positive and the node is not the root; a movement poll does so when
the level is high, the logical length is positive and the node is not the
root; otherwise nothing is sent.  Reachable states are those reached by steps
with a defined result, so no advertisement has overrun the table. -/
theorem event_sender (cap : Nat) (s : Sys) (a : List Nat) (bt inf l r j : Bool)
    (hs : Reachable cap s) (ha : a.length = 6) :
    data_to_send CMD_BUTTON_PRESSED a = [0x55] ++ a ++ [1] ∧
    data_to_send CMD_MOVEMENT_DETECTED a = [0x57] ++ a ++ [1] ∧
    (check_button_body bt inf r a j s).mesh_tx = s.mesh_tx ++
      (if s.button_pressed = false ∧ (bt = true ∨ inf = false) ∧
          0 < s.s_route_table_size ∧ r = false then
        [(route_entry s 0, { data := [0x55] ++ a ++ [1], size := 8 })]
      else []) ∧
    (check_movement_sensor_body l r a j s).mesh_tx = s.mesh_tx ++
      (if l = true ∧ 0 < s.s_route_table_size ∧ r = false then
        [(route_entry s 0, { data := [0x57] ++ a ++ [1], size := 8 })]
      else []) ∧
    0 ≤ s.s_route_table_size ∧ s.s_route_table_size ≤ (cap : Int) := by
  obtain ⟨-, hn, hcap⟩ := tableInv_reachable cap s hs
  have hiff : s.s_route_table_size ≠ 0 ↔ 0 < s.s_route_table_size := by omega
  have hb := data_to_send_eq CMD_BUTTON_PRESSED a ha
  have hm := data_to_send_eq CMD_MOVEMENT_DETECTED a ha
  refine ⟨hb, hm, ?_, ?_, hn, hcap⟩
  · rw [(check_button_body_tx bt inf r a j s).1, hb]
    simp only [hiff]
    rfl
  · rw [(check_movement_sensor_body_tx l r a j s).1, hm]
    simp only [hiff]
    rfl

theorem event_sender_witness :
    Reachable 2 leaf_with_route ∧ [1, 2, 3, 4, 5, 6].length = 6 ∧
    (check_button_body true true false [1, 2, 3, 4, 5, 6] true leaf_with_route).mesh_tx =
      [([0x24, 0x0a, 0xc4, 0x00, 0x00, 0x01],
        { data := [0x55, 1, 2, 3, 4, 5, 6, 1], size := 8 })] ∧
    (check_button_body true true true [1, 2, 3, 4, 5, 6] true leaf_with_route).mesh_tx = [] :=
  have hr : Reachable 2 leaf_with_route :=
    ⟨[Event.recv (route_advertisement [0x24, 0x0a, 0xc4, 0x00, 0x00, 0x01])], by decide⟩
  have h := event_sender 2 leaf_with_route [1, 2, 3, 4, 5, 6] true true true false true hr rfl
  have h2 := event_sender 2 leaf_with_route [1, 2, 3, 4, 5, 6] true true true true true hr rfl
  ⟨hr, rfl, h.2.2.1.trans (by decide), h2.2.2.1.trans (by decide)⟩

/-! ## Button debounce -/

theorem data_to_send_tag (cmd : Nat) (mac : List Nat) :
    (data_to_send cmd mac).getD 0 0 = cmd := by
  simp only [data_to_send, memcpy]
  split_ifs <;> simp

theorem button_frames_append (s t : Sys) (x : List (List Nat × mesh_data_t))
    (h : t.mesh_tx = s.mesh_tx ++ x) :
    button_frames t = button_frames s +
      (x.filter (fun p => p.2.data.getD 0 0 == CMD_BUTTON_PRESSED)).length := by
  unfold button_frames
  rw [h, List.filter_append, List.length_append]

theorem tick_button_frames (j : Bool) (s : Sys) :
    button_frames (traffic_light_control_body j s) = button_frames s := by
  unfold button_frames
  rw [(tick_frame j s).2.2.2]

theorem ticks_frame (js : List Bool) (s : Sys) :
    button_frames (ticks js s) = button_frames s ∧
    (ticks js s).s_route_table_size = s.s_route_table_size := by
  induction js generalizing s with
  | nil => exact ⟨rfl, rfl⟩
  | cons j js ih =>
    rw [ticks_cons]
    obtain ⟨h1, h2⟩ := ih (traffic_light_control_body j s)
    exact ⟨h1.trans (tick_button_frames j s), h2.trans (tick_frame j s).2.1⟩

theorem poll_button_frames (bt inf r : Bool) (mac : List Nat) (j : Bool) (s : Sys) :
    button_frames (check_button_body bt inf r mac j s) = button_frames s +
      (if s.button_pressed = false ∧ (bt = true ∨ inf = false) ∧
          s.s_route_table_size ≠ 0 ∧ r = false then 1 else 0) := by
  have htx := (check_button_body_tx bt inf r mac j s).1
  rw [button_frames_append s _ _ htx]
  have hq : (CMD_BUTTON_PRESSED == CMD_BUTTON_PRESSED) = true := by decide
  by_cases hc : s.button_pressed = false ∧ (bt = true ∨ inf = false) ∧
      s.s_route_table_size ≠ 0 ∧ r = false
  · rw [if_pos hc, if_pos hc]
    simp only [List.filter, data_to_send_tag, hq, List.length_singleton]
  · rw [if_neg hc, if_neg hc]
    rfl

theorem movement_button_frames (l r : Bool) (mac : List Nat) (j : Bool) (s : Sys) :
    button_frames (check_movement_sensor_body l r mac j s) = button_frames s := by
  have htx := (check_movement_sensor_body_tx l r mac j s).1
  rw [button_frames_append s _ _ htx]
  have hne : (CMD_MOVEMENT_DETECTED == CMD_BUTTON_PRESSED) = false := by decide
  by_cases hc : l = true ∧ s.s_route_table_size ≠ 0 ∧ r = false
  · rw [if_pos hc]
    simp only [List.filter, data_to_send_tag, hne, List.length_nil, Nat.add_zero]
  · rw [if_neg hc]
    rfl

theorem button_frames_step (s : Sys) (e : Event) (t : Sys) (hst : step s e = some t) :
    button_frames t + (if t.button_pressed = true then 0 else 1) ≤
      button_frames s + (if s.button_pressed = true then 0 else 1) +
        (if s.button_pressed = true ∧ t.button_pressed = false then 1 else 0) := by
  cases e with
  | tick j =>
    have ht : traffic_light_control_body j s = t := Option.some.inj hst
    rw [← ht, tick_button_frames]
    rcases Bool.eq_false_or_eq_true s.button_pressed with hb | hb <;>
      rcases Bool.eq_false_or_eq_true (traffic_light_control_body j s).button_pressed
        with hb2 | hb2 <;>
      simp [hb, hb2]
  | button_poll bt inf r mac j =>
    have ht : check_button_body bt inf r mac j s = t := Option.some.inj hst
    rw [← ht, poll_button_frames, check_button_body_flag]
    rcases Bool.eq_false_or_eq_true s.button_pressed with hb | hb
    · simp [hb]
    · by_cases hc : s.button_pressed = false ∧ (bt = true ∨ inf = false) ∧
          s.s_route_table_size ≠ 0 ∧ r = false
      · rw [if_pos hc]
        have hlev : (bt || !inf) = true := by
          rcases hc.2.1 with h | h <;> simp [h]
        simp [hb, hlev]
      · rw [if_neg hc]
        simp only [hb, Bool.false_or, Bool.false_eq_true, if_false, false_and, Nat.add_zero]
        split_ifs <;> omega
  | movement_poll l r mac j =>
    have ht : check_movement_sensor_body l r mac j s = t := Option.some.inj hst
    rw [← ht, movement_button_frames, check_movement_sensor_body_flag]
    split_ifs <;> omega
  | recv d =>
    obtain ⟨o, ho⟩ := step_recv d s t hst
    obtain ⟨hfl, htx, -⟩ := recv_cb_flag d s t o ho
    have hf : button_frames t = button_frames s := by
      unfold button_frames
      rw [htx]
    rw [hf, hfl]
    split_ifs <;> omega

theorem flag_clears_cons (e : Event) (es : List Event) (s u : Sys)
    (h : step s e = some u) :
    flag_clears (e :: es) s =
      (if s.button_pressed = true ∧ u.button_pressed = false then 1 else 0)
        + flag_clears es u := by
  show (match step s e with
    | none => 0
    | some t => (if s.button_pressed = true ∧ t.button_pressed = false then 1 else 0)
        + flag_clears es t) = _
  rw [h]

theorem button_frames_run (es : List Event) (s t : Sys) (hr : run es s = some t) :
    button_frames t + (if t.button_pressed = true then 0 else 1) ≤
      button_frames s + (if s.button_pressed = true then 0 else 1) + flag_clears es s := by
  induction es generalizing s with
  | nil =>
    have : s = t := Option.some.inj hr
    rw [this]
    simp [flag_clears]
  | cons e es ih =>
    cases hst : step s e with
    | none =>
      have : run (e :: es) s = none := by
        show (step s e).bind (run es) = none
        rw [hst]; rfl
      rw [this] at hr
      cases hr
    | some u =>
      rw [run_cons e es s u hst] at hr
      have h1 := ih u hr
      have h2 := button_frames_step s e u hst
      rw [flag_clears_cons e es s u hst]
      omega

set_option maxRecDepth 100000 in
/-- C12, as stated, fails: on a leaf (not the root) with one known route, with
the button level high at every poll, the run of one poll, ten ticks, a poll,
eleven ticks and a poll sends two ButtonPressed frames: the tick that ends the
cycle clears the flag and the next poll sends again. -/
theorem button_debounce_counterexample :
    button_frames leaf_with_route = 0 ∧
    (run held_button_run leaf_with_route).map button_frames = some 2 ∧
    flag_clears held_button_run leaf_with_route = 1 := by
  decide

/-! ## Telemetry -/

theorem phase_step_dirty (s : Sys) :
    (phase_step s).can_send = (s.can_send || decide ((phase_step s).color_pos ≠ s.color_pos)) := by
  rcases phase_step_forms s with ⟨h, e⟩ | ⟨h, -, -, e⟩ | ⟨-, h, -, e⟩ | ⟨-, h, -, e⟩ |
    ⟨-, h, -, e⟩ | ⟨h, -, -, -, -, e⟩ | ⟨h, -, -, -, -, e⟩ | ⟨h, -, -, -, e⟩
  all_goals rw [e]
  all_goals simp [h]

theorem tick_fields (j : Bool) (s : Sys) :
    light_view (traffic_light_control_body j s) = light_view (phase_step s) ∧
    (traffic_light_control_body j s).color_pos = (phase_step s).color_pos ∧
    (traffic_light_control_body j s).ped_color_pos = (phase_step s).ped_color_pos ∧
    (traffic_light_control_body j s).can_send = ((phase_step s).can_send && !j) ∧
    (traffic_light_control_body j s).mqtt_tx = (phase_step s).mqtt_tx ++
      (if (phase_step s).can_send = true ∧ j = true then
        [[("semaforo_coches", (phase_step s).color_pos),
          ("semaforo_peaton", (phase_step s).ped_color_pos.toNat)]]
      else []) := by
  unfold traffic_light_control_body
  rw [publish_step_eq]
  refine ⟨rfl, rfl, rfl, rfl, ?_⟩
  show (if (phase_step s).can_send = true ∧ j = true then _ else _) = _
  split_ifs <;> simp

/-- C13, as stated, fails: the first tick after start-up, taken with no
request pending, publishes a snapshot although `color_pos` stays 0, because
`can_send` is initialised to true. -/
theorem telemetry_only_on_transition_counterexample :
    (startup 2).mqtt_tx = [] ∧
    (traffic_light_control_body true (startup 2)).mqtt_tx
      = [[("semaforo_coches", 0), ("semaforo_peaton", 1)]] ∧
    (traffic_light_control_body true (startup 2)).color_pos = (startup 2).color_pos := by
  decide

/-- C13, amended.  In every state a tick publishes at most one snapshot, and
it publishes one exactly when construction of the telemetry object succeeds
and the dirty flag is set after the phase step: the flag was already set when
the tick began (the first tick after start-up, or a tick after one whose
construction failed) or this tick changed `color_pos`.  The snapshot holds the
new `color_pos` and `ped_color_pos`; the flag is cleared by a publish and
stays set otherwise. -/
theorem telemetry_on_dirty (s : Sys) (j : Bool) :
    (traffic_light_control_body j s).mqtt_tx = s.mqtt_tx ++
      (if (s.can_send = true ∨ (traffic_light_control_body j s).color_pos ≠ s.color_pos)
          ∧ j = true then
        [[("semaforo_coches", (traffic_light_control_body j s).color_pos),
          ("semaforo_peaton", (traffic_light_control_body j s).ped_color_pos.toNat)]]
      else []) ∧
    (traffic_light_control_body j s).can_send =
      ((s.can_send || decide ((traffic_light_control_body j s).color_pos ≠ s.color_pos))
        && !j) := by
  obtain ⟨-, hc, hp, hs, hm⟩ := tick_fields j s
  have hd := phase_step_dirty s
  rw [hm, hs, hc, hp, (phase_step_frame s).2.2.2.2, hd]
  refine ⟨?_, rfl⟩
  simp only [Bool.or_eq_true, decide_eq_true_eq]

theorem phase_step_light_view (a b : Sys) (h : light_view a = light_view b) :
    light_view (phase_step a) = light_view (phase_step b) := by
  simp only [light_view, Prod.mk.injEq] at h
  obtain ⟨hbp, hcp, hpp, htm, h0, h1, l1, l2, l3, p1, p2⟩ := h
  rcases phase_step_forms a with ⟨hb, e⟩ | ⟨hb, ht, hc, e⟩ | ⟨hb, hc, ht, e⟩ | ⟨hb, hc, ht, e⟩ |
    ⟨hb, hc, ht, e⟩ | ⟨hb, hc, ht, ht5, hp, e⟩ | ⟨hb, hc, ht, ht5, hp, e⟩ |
    ⟨hb, c0, c1, c2, e⟩
  · rw [e, phase_step_idle b (hbp ▸ hb)]
    simp only [light_view, hbp, hcp, hpp, htm]
  · have e2 : phase_step b = { b with timer := b.timer - 1 } := by
      rcases hc with hc | hc | ⟨hc, h5⟩
      · exact phase_step_green_wait b (hbp ▸ hb) (hcp ▸ hc) (htm ▸ ht)
      · exact phase_step_yellow_wait b (hbp ▸ hb) (hcp ▸ hc) (htm ▸ ht)
      · exact phase_step_red_hold b (hbp ▸ hb) (hcp ▸ hc) (htm ▸ h5)
    rw [e, e2]
    simp only [light_view, hbp, hcp, hpp, htm, h0, h1, l1, l2, l3, p1, p2]
  · rw [e, phase_step_green_go b (hbp ▸ hb) (hcp ▸ hc) (htm ▸ ht)]
    simp only [light_view, hbp, h1, p1, p2]
  · rw [e, phase_step_yellow_go b (hbp ▸ hb) (hcp ▸ hc) (htm ▸ ht)]
    simp only [light_view, hbp]
  · rw [e, phase_step_red_go b (hbp ▸ hb) (hcp ▸ hc) (htm ▸ ht)]
    simp only [light_view]
  · rw [e, phase_step_red_blink_from_red b (hbp ▸ hb) (hcp ▸ hc) (htm ▸ ht) (htm ▸ ht5)
      (hpp ▸ hp)]
    simp only [light_view, hbp, hcp, htm, h0, l1, l2, l3]
  · rw [e, phase_step_red_blink_from_green b (hbp ▸ hb) (hcp ▸ hc) (htm ▸ ht) (htm ▸ ht5)
      (hpp ▸ hp)]
    simp only [light_view, hbp, hcp, htm, h0, l1, l2, l3]
  · rw [e, phase_step_other b (hbp ▸ hb) (hcp ▸ c0) (hcp ▸ c1) (hcp ▸ c2)]
    simp only [light_view, hbp, hcp, hpp, htm, h0, h1, l1, l2, l3, p1, p2]

theorem tick_light_view (j k : Bool) (a b : Sys) (h : light_view a = light_view b) :
    light_view (traffic_light_control_body j a) = light_view (traffic_light_control_body k b) := by
  rw [(tick_fields j a).1, (tick_fields k b).1]
  exact phase_step_light_view a b h

theorem ticks_light_view (js : List Bool) (a b : Sys) (h : light_view a = light_view b) :
    light_view (ticks js a) = light_view (ticks (List.replicate js.length true) b) := by
  induction js generalizing a b with
  | nil => exact h
  | cons j js ih =>
    show light_view (ticks js (traffic_light_control_body j a)) =
      light_view (ticks (List.replicate js.length true) (traffic_light_control_body true b))
    exact ih _ _ (tick_light_view j true a b h)

/-- C14 (telemetry failure never blocks the light sequence).  For every state,
the tick whose telemetry object cannot be built leaves request flag, phase,
pedestrian mirror, countdown, driven colours and outputs exactly as the tick
with a successful build does; the two results differ only in that the failed
tick publishes nothing and keeps the dirty flag as the phase step left it,
while the successful one clears it.  Whatever ticks follow, and whichever of
them fail, the light sequence is the one of the run without failures. -/
theorem telemetry_failure_harmless (s : Sys) (js : List Bool) :
    light_view (traffic_light_control_body false s)
      = light_view (traffic_light_control_body true s) ∧
    traffic_light_control_body false s =
      { traffic_light_control_body true s with
        can_send := (phase_step s).can_send, mqtt_tx := s.mqtt_tx } ∧
    (traffic_light_control_body false s).can_send
      = (s.can_send || decide ((phase_step s).color_pos ≠ s.color_pos)) ∧
    (traffic_light_control_body true s).can_send = false ∧
    light_view (ticks js (traffic_light_control_body false s))
      = light_view (ticks js (traffic_light_control_body true s)) ∧
    light_view (ticks js s) = light_view (ticks (List.replicate js.length true) s) := by
  have hv := tick_light_view false true s s rfl
  refine ⟨hv, ?_, ?_, ?_, ?_, ticks_light_view js s s rfl⟩
  · unfold traffic_light_control_body
    rw [publish_step_eq, publish_step_eq, (phase_step_frame s).2.2.2.2]
    simp
  · rw [(tick_fields false s).2.2.2.1, phase_step_dirty]
    simp
  · rw [(tick_fields true s).2.2.2.1]
    simp
  · rw [ticks_light_view js _ _ hv]
    exact (ticks_light_view js _ _ rfl).symm

/-! ## Initial state -/

/-- C16, as stated, fails: at start-up the phase state is `color_pos = 0`,
vehicle green, not 2, vehicle red. -/
theorem initial_state_counterexample :
    (startup 2).color_pos = 0 ∧ (startup 2).color_pos ≠ 2 := by
  decide

/-- C16, amended.  At start-up, before the first tick, both the vehicle and
the pedestrian signal have been driven red (outputs red on, all others off),
while the phase state of the engine is `color_pos = 0`, vehicle green, with
pedestrian mirror red, countdown 0, the dirty flag set and no request pending;
the first tick, if no request has arrived, drives the vehicle signal green. -/
theorem initial_state (cap : Nat) (j : Bool) :
    (startup cap).state0 = TRAFFIC_LIGHT_RED ∧ (startup cap).state1 = TRAFFIC_LIGHT_RED ∧
    (startup cap).LED_PIN_1 = 1 ∧ (startup cap).LED_PIN_2 = 0 ∧ (startup cap).LED_PIN_3 = 0 ∧
    (startup cap).PED_LED_PIN_1 = 1 ∧ (startup cap).PED_LED_PIN_2 = 0 ∧
    (startup cap).color_pos = 0 ∧ (startup cap).ped_color_pos = true ∧
    (startup cap).timer = 0 ∧ (startup cap).can_send = true ∧
    (startup cap).button_pressed = false ∧
    (traffic_light_control_body j (startup cap)).state0 = TRAFFIC_LIGHT_GREEN ∧
    (traffic_light_control_body j (startup cap)).color_pos = 0 := by
  refine ⟨rfl, rfl, rfl, rfl, rfl, rfl, rfl, rfl, rfl, rfl, rfl, rfl, ?_, ?_⟩
  · have h := congrArg (fun v => v.2.2.2.2.1) (tick_fields j (startup cap)).1
    simp only [light_view] at h
    rw [h, phase_step_idle (startup cap) rfl]
    rfl
  · rw [(tick_fields j (startup cap)).2.1, phase_step_idle (startup cap) rfl]
    rfl

/-! ## Phase engine: reachable shapes -/

theorem engineInv_startup (cap : Nat) : EngineInv (startup cap) := by
  refine ⟨?_, ?_, fun _ => rfl, fun _ => rfl, fun h => ?_⟩
  · show (0 : Nat) ≤ 15
    omega
  · show (0 : Nat) ≤ 2
    omega
  · exact absurd (show (0 : Nat) = 2 from h) (by decide)

theorem ped_view_mirror (s : Sys) (v : Nat × Nat × Nat × Bool)
    (h : ped_view s = v) : s.ped_color_pos = v.2.2.2 :=
  congrArg (fun x => x.2.2.2) h

theorem engineInv_phase_step (s : Sys) (h : EngineInv s) : EngineInv (phase_step s) := by
  obtain ⟨it, ic, ib, ip, ir⟩ := h
  rcases phase_step_forms s with ⟨hb, e⟩ | ⟨hb, ht, hc, e⟩ | ⟨hb, hc, ht, e⟩ | ⟨hb, hc, ht, e⟩ |
    ⟨hb, hc, ht, e⟩ | ⟨hb, hc, ht, ht5, hp, e⟩ | ⟨hb, hc, ht, ht5, hp, e⟩ |
    ⟨hb, c0, c1, c2, e⟩
  · -- idle
    have h0 := ib hb
    rw [e]
    refine ⟨?_, ic, fun _ => h0, ip, fun h2 => ?_⟩
    · show s.timer - 1 ≤ 15
      omega
    · exact absurd (h0.symm.trans h2) (by decide)
  · -- wait
    rw [e]
    refine ⟨?_, ic, fun hf => absurd (hb.symm.trans hf) (by decide), ip, fun h2 => ?_⟩
    · show s.timer - 1 ≤ 15
      omega
    · have h2s : s.color_pos = 2 := h2
      have h5 : 5 < s.timer := by
        rcases hc with hc | hc | ⟨-, h5⟩
        · exact absurd (hc.symm.trans h2s) (by decide)
        · exact absurd (hc.symm.trans h2s) (by decide)
        · exact h5
      obtain ⟨-, r1, -, -⟩ := ir h2s
      refine ⟨hb, ?_, ?_, ?_⟩
      · intro _
        exact r1 (by omega)
      · intro hlt
        exact absurd (show s.timer - 1 < 5 from hlt) (by omega)
      · intro hlt
        exact absurd (show s.timer - 1 < 5 from hlt) (by omega)
  · -- green to yellow
    rw [e]
    exact ⟨by show (3 : Nat) ≤ 15; omega, by show (1 : Nat) ≤ 2; omega,
      fun hf => absurd (hb.symm.trans hf) (by decide), fun _ => rfl,
      fun h2 => absurd (show (1 : Nat) = 2 from h2) (by decide)⟩
  · -- yellow to red
    rw [e]
    refine ⟨by show (15 : Nat) ≤ 15; omega, by show (2 : Nat) ≤ 2; omega,
      fun hf => absurd (hb.symm.trans hf) (by decide),
      fun hne => absurd rfl hne, fun _ => ⟨hb, ?_, ?_, ?_⟩⟩
    · intro _
      rfl
    · intro hlt
      exact absurd (show (15 : Nat) < 5 from hlt) (by omega)
    · intro hlt
      exact absurd (show (15 : Nat) < 5 from hlt) (by omega)
  · -- red to green
    rw [e]
    exact ⟨by show (10 : Nat) ≤ 15; omega, by show (0 : Nat) ≤ 2; omega,
      fun _ => rfl, fun _ => rfl,
      fun h2 => absurd (show (0 : Nat) = 2 from h2) (by decide)⟩
  · -- blink, mirror at 1
    obtain ⟨-, r1, r2, r3⟩ := ir hc
    have hlt : s.timer < 5 := by
      by_contra hge
      have := ped_view_mirror s _ (r1 (by omega))
      exact absurd (this.symm.trans hp) (by decide)
    have heven : s.timer % 2 = 0 := by
      by_contra hodd
      have := ped_view_mirror s _ (r3 hlt (by omega))
      exact absurd (this.symm.trans hp) (by decide)
    rw [e]
    refine ⟨by show s.timer - 1 ≤ 15; omega, ic,
      fun hf => absurd (hb.symm.trans hf) (by decide),
      fun hne => absurd hc hne, fun _ => ⟨hb, ?_, ?_, ?_⟩⟩
    · intro h5
      exact absurd (show 5 ≤ s.timer - 1 from h5) (by omega)
    · intro _ hev
      exact absurd (show (s.timer - 1) % 2 = 0 from hev) (by omega)
    · intro _ _
      rfl
  · -- blink, mirror at 0
    obtain ⟨-, r1, r2, r3⟩ := ir hc
    have hodd : s.timer = 5 ∨ s.timer % 2 = 1 := by
      by_cases h5 : s.timer = 5
      · exact Or.inl h5
      · right
        by_contra hev
        have := ped_view_mirror s _ (r2 (by omega) (by omega))
        exact absurd (this.symm.trans hp) (by decide)
    rw [e]
    refine ⟨by show s.timer - 1 ≤ 15; omega, ic,
      fun hf => absurd (hb.symm.trans hf) (by decide),
      fun hne => absurd hc hne, fun _ => ⟨hb, ?_, ?_, ?_⟩⟩
    · intro h5
      exact absurd (show 5 ≤ s.timer - 1 from h5) (by omega)
    · intro _ _
      rfl
    · intro _ hod
      exact absurd (show (s.timer - 1) % 2 = 1 from hod) (by omega)
  · -- no such phase
    omega

theorem engineInv_publish_step (j : Bool) (s : Sys) (h : EngineInv s) :
    EngineInv (publish_step j s) := by
  rw [publish_step_eq]
  exact h

theorem engineInv_of_sameSignals (s t : Sys) (hs : SameSignals s t)
    (hb : t.button_pressed = s.button_pressed ∨ t.button_pressed = true)
    (h : EngineInv s) : EngineInv t := by
  obtain ⟨c, p, tm, -, -, s1, -, -, -, p1, p2⟩ := hs
  obtain ⟨it, ic, ib, ip, ir⟩ := h
  have hv : ped_view t = ped_view s := by
    simp only [ped_view, s1, p1, p2, p]
  refine ⟨tm ▸ it, c ▸ ic, ?_, ?_, ?_⟩
  · intro hf
    rw [c]
    rcases hb with hb | hb
    · exact ib (hb ▸ hf)
    · exact absurd (hb.symm.trans hf) (by decide)
  · intro hne
    rw [p]
    exact ip (c ▸ hne)
  · intro h2
    obtain ⟨b2, r⟩ := ir (c ▸ h2)
    refine ⟨?_, ?_⟩
    · rcases hb with hb | hb
      · exact hb.trans b2
      · exact hb
    · unfold RedShape at r ⊢
      rw [hv, tm]
      exact r

theorem engineInv_step (s : Sys) (e : Event) (t : Sys) (h : EngineInv s)
    (hst : step s e = some t) : EngineInv t := by
  cases e with
  | tick j =>
    have ht : traffic_light_control_body j s = t := Option.some.inj hst
    rw [← ht]
    exact engineInv_publish_step j _ (engineInv_phase_step s h)
  | button_poll bt inf r mac j =>
    have ht : check_button_body bt inf r mac j s = t := Option.some.inj hst
    rw [← ht]
    refine engineInv_of_sameSignals s _ (check_button_body_signals bt inf r mac j s) ?_ h
    have hf := check_button_body_flag bt inf r mac j s
    rcases Bool.eq_false_or_eq_true (bt || !inf) with hl | hl
    · right
      exact hf.trans (by rw [hl, Bool.or_true])
    · left
      exact hf.trans (by rw [hl, Bool.or_false])
  | movement_poll l r mac j =>
    have ht : check_movement_sensor_body l r mac j s = t := Option.some.inj hst
    rw [← ht]
    exact engineInv_of_sameSignals s _ (check_movement_sensor_body_signals l r mac j s)
      (Or.inl (check_movement_sensor_body_flag l r mac j s)) h
  | recv d =>
    obtain ⟨o, ho⟩ := step_recv d s t hst
    exact engineInv_of_sameSignals s _ (recv_cb_signals d s t o ho)
      (Or.inl (recv_cb_flag d s t o ho).1) h

theorem engineInv_reachable (cap : Nat) (s : Sys) (h : Reachable cap s) : EngineInv s := by
  obtain ⟨es, hr⟩ := h
  exact run_invariant EngineInv (fun s e t hs hst => engineInv_step s e t hs hst)
    es (startup cap) s (engineInv_startup cap) hr

/-! ## Idle clamp -/

/-- C15 (idle clamp).  In every state with no request pending that is reached
from start-up by engine ticks, sensor polls and deliveries to `recv_cb` with a
defined result, the phase is `color_pos = 0` with the pedestrian mirror at red
and the countdown at most 15; a tick taken there drives vehicle green and
pedestrian red, keeps the phase, the mirror and the clear flag, and sets the
countdown to `countdown - 1` cut off at 0. -/
theorem idle_clamp (cap : Nat) (s : Sys) (j : Bool) (hs : Reachable cap s)
    (hb : s.button_pressed = false) :
    s.color_pos = 0 ∧ s.ped_color_pos = true ∧ s.timer ≤ 15 ∧
    light_view (traffic_light_control_body j s) =
      (false, 0, true, s.timer - 1, TRAFFIC_LIGHT_GREEN, TRAFFIC_LIGHT_RED, 0, 0, 1, 1, 0) ∧
    ((traffic_light_control_body j s).timer : Int) = max ((s.timer : Int) - 1) 0 := by
  obtain ⟨it, -, ib, ip, -⟩ := engineInv_reachable cap s hs
  have h0 := ib hb
  have hp := ip (by rw [h0]; decide)
  have hv : light_view (traffic_light_control_body j s) =
      (false, 0, true, s.timer - 1, TRAFFIC_LIGHT_GREEN, TRAFFIC_LIGHT_RED, 0, 0, 1, 1, 0) := by
    rw [(tick_fields j s).1, phase_step_idle s hb]
    simp only [light_view, hb, h0, hp]
    rfl
  have ht : (traffic_light_control_body j s).timer = s.timer - 1 :=
    congrArg (fun v => v.2.2.2.1) hv
  refine ⟨h0, hp, it, hv, ?_⟩
  rw [ht]
  omega

theorem idle_clamp_witness :
    Reachable 2 (startup 2) ∧ (startup 2).button_pressed = false ∧
    light_view (traffic_light_control_body true (startup 2)) =
      (false, 0, true, 0, TRAFFIC_LIGHT_GREEN, TRAFFIC_LIGHT_RED, 0, 0, 1, 1, 0) :=
  ⟨⟨[], rfl⟩, rfl, (idle_clamp 2 (startup 2) true ⟨[], rfl⟩ rfl).2.2.2.1⟩

/-! ## Pedestrian output in the red phase -/

theorem redShape_views (s : Sys) (h : RedShape s) :
    ped_view s = (TRAFFIC_LIGHT_GREEN, 0, 1, false) ∨
    ped_view s = (TRAFFIC_LIGHT_GREEN, 0, 1, true) ∨
    ped_view s = (0, 0, 0, false) := by
  obtain ⟨r1, r2, r3⟩ := h
  by_cases h5 : 5 ≤ s.timer
  · exact Or.inl (r1 h5)
  · by_cases hev : s.timer % 2 = 0
    · exact Or.inr (Or.inl (r2 (by omega) hev))
    · exact Or.inr (Or.inr (r3 (by omega) (by omega)))

theorem not_red_of_views (v : Nat × Nat × Nat × Bool)
    (h : v = (TRAFFIC_LIGHT_GREEN, 0, 1, false) ∨ v = (TRAFFIC_LIGHT_GREEN, 0, 1, true) ∨
      v = (0, 0, 0, false)) : v.1 ≠ TRAFFIC_LIGHT_RED := by
  rcases h with h | h | h <;> rw [h] <;> decide

/-- C18 (pedestrian output in the red phase).  In every state with
`color_pos = 2` that is reached from start-up by engine ticks, sensor polls
and deliveries to `recv_cb` with a defined result, the request is pending and
the pedestrian signal was last driven green (outputs 0, 1) or 0 (outputs 0, 0,
which is what `pedestrian_traffic_light_set(0)` sets), never red.  A tick taken there with
countdown above 0 stays in the red phase; with countdown above 5 it leaves the
pedestrian side alone, with countdown at most 5 it drives green and sets the
mirror to 1 when the mirror was 0, and drives 0 and sets the mirror to 0 when
the mirror was 1; so it never drives red.  From countdown 5 the five ticks
taken at countdown 5, 4, 3, 2, 1 drive green, 0, green, 0, green and leave the
mirror at 1, 0, 1, 0, 1. -/
theorem pedestrian_output_in_red (cap : Nat) (s : Sys) (j j5 j4 j3 j2 j1 : Bool)
    (hs : Reachable cap s) (hc : s.color_pos = 2) (ht : 0 < s.timer) :
    s.button_pressed = true ∧
    (ped_view s = (TRAFFIC_LIGHT_GREEN, 0, 1, false) ∨
      ped_view s = (TRAFFIC_LIGHT_GREEN, 0, 1, true) ∨ ped_view s = (0, 0, 0, false)) ∧
    s.state1 ≠ TRAFFIC_LIGHT_RED ∧
    (pedestrian_traffic_light_set 0 s).PED_LED_PIN_1 = 0 ∧
    (pedestrian_traffic_light_set 0 s).PED_LED_PIN_2 = 0 ∧
    (traffic_light_control_body j s).color_pos = 2 ∧
    ped_view (traffic_light_control_body j s) =
      (if s.timer ≤ 5 then
        (if s.ped_color_pos = true then (0, 0, 0, false) else (TRAFFIC_LIGHT_GREEN, 0, 1, true))
      else ped_view s) ∧
    (traffic_light_control_body j s).state1 ≠ TRAFFIC_LIGHT_RED ∧
    (s.timer = 5 →
      (tick_trace [j5, j4, j3, j2, j1] s).map ped_view =
        [(TRAFFIC_LIGHT_GREEN, 0, 1, true), (0, 0, 0, false), (TRAFFIC_LIGHT_GREEN, 0, 1, true),
         (0, 0, 0, false), (TRAFFIC_LIGHT_GREEN, 0, 1, true)]) := by
  obtain ⟨-, -, -, -, ir⟩ := engineInv_reachable cap s hs
  obtain ⟨hb, hr⟩ := ir hc
  have hviews := redShape_views s hr
  have hstep : ped_view (traffic_light_control_body j s) =
      (if s.timer ≤ 5 then
        (if s.ped_color_pos = true then (0, 0, 0, false) else (TRAFFIC_LIGHT_GREEN, 0, 1, true))
      else ped_view s) := by
    by_cases h5 : s.timer ≤ 5
    · rw [if_pos h5]
      rcases Bool.eq_false_or_eq_true s.ped_color_pos with hp | hp
      · rw [if_pos hp]
        exact tick_red_blink_from_red j s hb hc ht h5 hp
      · rw [if_neg (by rw [hp]; decide)]
        exact tick_red_blink_from_green j s hb hc ht h5 hp
    · rw [if_neg h5]
      exact tick_red_hold j s hb hc (by omega)
  have hviews2 : ped_view (traffic_light_control_body j s) = (TRAFFIC_LIGHT_GREEN, 0, 1, false) ∨
      ped_view (traffic_light_control_body j s) = (TRAFFIC_LIGHT_GREEN, 0, 1, true) ∨
      ped_view (traffic_light_control_body j s) = (0, 0, 0, false) := by
    rw [hstep]
    by_cases h5 : s.timer ≤ 5
    · rw [if_pos h5]
      split_ifs
      · exact Or.inr (Or.inr rfl)
      · exact Or.inr (Or.inl rfl)
    · rw [if_neg h5]
      exact hviews
  refine ⟨hb, hviews, not_red_of_views _ hviews, rfl, rfl, ?_, hstep,
    not_red_of_views _ hviews2, ?_⟩
  · exact (tick_wait j s hb (Or.inr (Or.inr hc)) ht).2.1.trans hc
  · intro h5
    have hp : s.ped_color_pos = false := ped_view_mirror s _ (hr.1 (by omega))
    exact trace_red_blink j5 j4 j3 j2 j1 s hb hc h5 hp

theorem pedestrian_output_in_red_witness :
    Reachable 2 red_blink_start ∧ red_blink_start.color_pos = 2 ∧ 0 < red_blink_start.timer ∧
    red_blink_start.timer = 5 ∧
    (tick_trace [true, true, true, true, true] red_blink_start).map ped_view =
      [(TRAFFIC_LIGHT_GREEN, 0, 1, true), (0, 0, 0, false), (TRAFFIC_LIGHT_GREEN, 0, 1, true),
       (0, 0, 0, false), (TRAFFIC_LIGHT_GREEN, 0, 1, true)] :=
  have hr : Reachable 2 red_blink_start :=
    ⟨Event.button_poll true true true [] true :: List.replicate 15 (Event.tick true), rfl⟩
  ⟨hr, by decide, by decide, by decide,
    (pedestrian_output_in_red 2 red_blink_start true true true true true true
      hr (by decide) (by decide)).2.2.2.2.2.2.2.2 (by decide)⟩

/-! ## Cycle length -/

theorem cycle_profile (s : Sys) (js1 js2 js3 : List Bool)
    (hb : s.button_pressed = true) (hc : s.color_pos = 0)
    (h1 : js1.length = s.timer + 1) (h2 : js2.length = 4) (h3 : js3.length = 16) :
    (∀ k, k ≤ s.timer →
      (ticks (js1.take k) s).color_pos = 0 ∧ (ticks (js1.take k) s).button_pressed = true ∧
      (ticks (js1.take k) s).timer = s.timer - k) ∧
    (∀ k, k ≤ 3 →
      (ticks (js1 ++ js2.take k) s).color_pos = 1 ∧
      (ticks (js1 ++ js2.take k) s).button_pressed = true ∧
      (ticks (js1 ++ js2.take k) s).timer = 3 - k) ∧
    (∀ k, k ≤ 15 →
      (ticks (js1 ++ (js2 ++ js3.take k)) s).color_pos = 2 ∧
      (ticks (js1 ++ (js2 ++ js3.take k)) s).button_pressed = true ∧
      (ticks (js1 ++ (js2 ++ js3.take k)) s).timer = 15 - k) ∧
    (ticks (js1 ++ (js2 ++ js3)) s).color_pos = 0 ∧
    (ticks (js1 ++ (js2 ++ js3)) s).button_pressed = false ∧
    (ticks (js1 ++ (js2 ++ js3)) s).timer = 10 := by
  -- green phase
  obtain ⟨g1, jg, g2⟩ := phase_segment s js1 hb (Or.inl hc) h1
  obtain ⟨gb, gc, gt⟩ := g1 s.timer (Nat.le_refl _)
  have gy := tick_green_go jg (ticks (js1.take s.timer) s) gb (gc.trans hc) (by omega)
  rw [← g2] at gy
  obtain ⟨yb, yc, yt⟩ := gy
  -- yellow phase
  obtain ⟨y1, jy, y2⟩ := phase_segment (ticks js1 s) js2 yb (Or.inr (Or.inl yc))
    (by rw [yt]; exact h2)
  obtain ⟨yb3, yc3, yt3⟩ := y1 (ticks js1 s).timer (Nat.le_refl _)
  have yr := tick_yellow_go jy _ yb3 (yc3.trans yc) (by omega)
  rw [← y2, ← ticks_append] at yr
  obtain ⟨rb, rc, rt, -, -, -⟩ := yr
  -- red phase
  obtain ⟨r1, jr, r2⟩ := phase_segment (ticks (js1 ++ js2) s) js3 rb (Or.inr (Or.inr rc))
    (by rw [rt]; exact h3)
  obtain ⟨rb15, rc15, rt15⟩ := r1 (ticks (js1 ++ js2) s).timer (Nat.le_refl _)
  have rg := tick_red_go jr _ rb15 (rc15.trans rc) (by omega)
  rw [← r2, ← ticks_append, List.append_assoc] at rg
  obtain ⟨fb, fc, ft, -, -, -⟩ := rg
  refine ⟨?_, ?_, ?_, fc, fb, ft⟩
  · intro k hk
    obtain ⟨a, b, c⟩ := g1 k hk
    exact ⟨b.trans hc, a, c⟩
  · intro k hk
    rw [ticks_append]
    obtain ⟨a, b, c⟩ := y1 k (by omega)
    exact ⟨b.trans yc, a, by omega⟩
  · intro k hk
    rw [← List.append_assoc, ticks_append]
    obtain ⟨a, b, c⟩ := r1 k (by omega)
    exact ⟨b.trans rc, a, by omega⟩

theorem split_three (js : List Bool) (t : Nat) (hl : js.length = t + 21) :
    ∃ js1 js2 js3, js = js1 ++ (js2 ++ js3) ∧ js1.length = t + 1 ∧ js2.length = 4 ∧
      js3.length = 16 := by
  refine ⟨js.take (t + 1), (js.drop (t + 1)).take 4, (js.drop (t + 1)).drop 4, ?_, ?_, ?_, ?_⟩
  · rw [List.take_append_drop, List.take_append_drop]
  · rw [List.length_take]; omega
  · rw [List.length_take, List.length_drop]; omega
  · rw [List.length_drop, List.length_drop]; omega

/-- C17 (cycle length).  From `color_pos = 0` with the request pending and
countdown `t`, with `t + 21` engine ticks: after `k ≤ t` ticks the engine is
in phase 0 with countdown `t - k`; tick `t + 1` enters phase 1 with countdown
3, and `k ≤ 3` ticks later the countdown is `3 - k`; tick `t + 5` enters phase
2 with countdown 15, and `k ≤ 15` ticks later the countdown is `15 - k`; tick
`t + 21` enters phase 0 with countdown 10 and clears the request flag, which
is set after every smaller number of ticks.  So a phase entered with countdown
`N` is left by tick `N + 1` after entry, and the tick that enters a phase does
not decrement its countdown. -/
theorem cycle_length (s : Sys) (js : List Bool)
    (hb : s.button_pressed = true) (hc : s.color_pos = 0)
    (hl : js.length = s.timer + 21) :
    (∀ k, k ≤ s.timer →
      (ticks (js.take k) s).color_pos = 0 ∧ (ticks (js.take k) s).button_pressed = true ∧
      (ticks (js.take k) s).timer = s.timer - k) ∧
    (∀ k, k ≤ 3 →
      (ticks (js.take (s.timer + 1 + k)) s).color_pos = 1 ∧
      (ticks (js.take (s.timer + 1 + k)) s).button_pressed = true ∧
      (ticks (js.take (s.timer + 1 + k)) s).timer = 3 - k) ∧
    (∀ k, k ≤ 15 →
      (ticks (js.take (s.timer + 5 + k)) s).color_pos = 2 ∧
      (ticks (js.take (s.timer + 5 + k)) s).button_pressed = true ∧
      (ticks (js.take (s.timer + 5 + k)) s).timer = 15 - k) ∧
    (ticks js s).color_pos = 0 ∧ (ticks js s).button_pressed = false ∧
    (ticks js s).timer = 10 ∧
    (∀ k, k < s.timer + 21 → (ticks (js.take k) s).button_pressed = true) := by
  obtain ⟨js1, js2, js3, rfl, h1, h2, h3⟩ := split_three js s.timer hl
  obtain ⟨p0, p1, p2, fc, fb, ft⟩ := cycle_profile s js1 js2 js3 hb hc h1 h2 h3
  have e0 : ∀ k, k ≤ s.timer → (js1 ++ (js2 ++ js3)).take k = js1.take k := by
    intro k hk
    exact List.take_append_of_le_length (by omega)
  have e1 : ∀ k, k ≤ 3 →
      (js1 ++ (js2 ++ js3)).take (s.timer + 1 + k) = js1 ++ js2.take k := by
    intro k hk
    rw [← h1, List.take_append, List.take_append_of_le_length (by omega)]
  have e2 : ∀ k, k ≤ 15 →
      (js1 ++ (js2 ++ js3)).take (s.timer + 5 + k) = js1 ++ (js2 ++ js3.take k) := by
    intro k hk
    have : s.timer + 5 + k = js1.length + (js2.length + k) := by omega
    rw [this, List.take_append, List.take_append]
  refine ⟨?_, ?_, ?_, fc, fb, ft, ?_⟩
  · intro k hk
    rw [e0 k hk]
    exact p0 k hk
  · intro k hk
    rw [e1 k hk]
    exact p1 k hk
  · intro k hk
    rw [e2 k hk]
    exact p2 k hk
  · intro k hk
    by_cases c0 : k ≤ s.timer
    · rw [e0 k c0]
      exact (p0 k c0).2.1
    · by_cases c1 : k ≤ s.timer + 4
      · have : k = s.timer + 1 + (k - (s.timer + 1)) := by omega
        rw [this, e1 _ (by omega)]
        exact (p1 _ (by omega)).2.1
      · have : k = s.timer + 5 + (k - (s.timer + 5)) := by omega
        rw [this, e2 _ (by omega)]
        exact (p2 _ (by omega)).2.1

theorem cycle_length_witness :
    second_request.button_pressed = true ∧ second_request.color_pos = 0 ∧
    (List.replicate 31 true).length = second_request.timer + 21 ∧
    (ticks (List.replicate 31 true) second_request).color_pos = 0 ∧
    (ticks (List.replicate 31 true) second_request).button_pressed = false ∧
    (ticks ((List.replicate 31 true).take 30) second_request).button_pressed = true :=
  have h := cycle_length second_request (List.replicate 31 true)
    (by decide) (by decide) (by decide)
  ⟨by decide, by decide, by decide, h.2.2.2.1, h.2.2.2.2.1, h.2.2.2.2.2.2 30 (by decide)⟩

/-! ## Button debounce: one frame per request -/

/-- C12, amended.  A button poll sends a ButtonPressed frame exactly when it
finds the request flag clear, reads the button level high or the infrared
level low, the logical table length is nonzero and the node is not the root;
that poll sets the flag, and a poll that finds the flag set sends nothing.
Hence over every interleaving of steps the number of frames sent is at most
the number of steps that clear the flag (cycle completions), plus one if the
flag was clear at the start.  With the button held on a leaf that idles in
phase 0 with countdown `t`: the first poll sends one frame, and after the
`t + 21` ticks of the cycle the next poll sends a second one. -/
theorem button_debounce_per_request (s : Sys) (js : List Bool) (inf1 inf2 j1 j2 : Bool)
    (mac : List Nat) (hb : s.button_pressed = false) (hc : s.color_pos = 0)
    (hsz : s.s_route_table_size ≠ 0) (hl : js.length = s.timer + 21) :
    (∀ (u : Sys) (bt inf r j : Bool) (m : List Nat),
      button_frames (check_button_body bt inf r m j u) = button_frames u +
        (if u.button_pressed = false ∧ (bt = true ∨ inf = false) ∧
            u.s_route_table_size ≠ 0 ∧ r = false then 1 else 0) ∧
      (check_button_body bt inf r m j u).button_pressed
        = (u.button_pressed || (bt || !inf))) ∧
    (∀ (es : List Event) (u v : Sys), run es u = some v →
      button_frames v ≤
        button_frames u + flag_clears es u + (if u.button_pressed = true then 0 else 1)) ∧
    button_frames (check_button_body true inf1 false mac j1 s) = button_frames s + 1 ∧
    (check_button_body true inf1 false mac j1 s).button_pressed = true ∧
    (ticks js (check_button_body true inf1 false mac j1 s)).button_pressed = false ∧
    button_frames (check_button_body true inf2 false mac j2
      (ticks js (check_button_body true inf1 false mac j1 s))) = button_frames s + 2 := by
  have hsig := check_button_body_signals true inf1 false mac j1 s
  have hfl : (check_button_body true inf1 false mac j1 s).button_pressed = true := by
    rw [check_button_body_flag]
    simp
  have hfr : button_frames (check_button_body true inf1 false mac j1 s)
      = button_frames s + 1 := by
    rw [poll_button_frames, if_pos ⟨hb, Or.inl rfl, hsz, rfl⟩]
  have hsz1 : (check_button_body true inf1 false mac j1 s).s_route_table_size
      = s.s_route_table_size := (check_button_body_tx true inf1 false mac j1 s).2
  generalize check_button_body true inf1 false mac j1 s = u at hsig hfl hfr hsz1 ⊢
  obtain ⟨js1, js2, js3, rfl, h1, h2, h3⟩ := split_three js s.timer hl
  have hcu : u.color_pos = 0 := hsig.1.trans hc
  have htu : u.timer = s.timer := hsig.2.2.1
  obtain ⟨-, -, -, -, fb, -⟩ := cycle_profile u js1 js2 js3 hfl hcu (by rw [htu]; exact h1) h2 h3
  obtain ⟨tf, ts⟩ := ticks_frame (js1 ++ (js2 ++ js3)) u
  refine ⟨fun v bt inf r j m => ⟨poll_button_frames bt inf r m j v,
      check_button_body_flag bt inf r m j v⟩, ?_, hfr, hfl, fb, ?_⟩
  · intro es v w hr
    have h := button_frames_run es v w hr
    omega
  · rw [poll_button_frames, if_pos ⟨fb, Or.inl rfl, by rw [ts, hsz1]; exact hsz, rfl⟩, tf, hfr]

theorem button_debounce_per_request_witness :
    leaf_with_route.button_pressed = false ∧ leaf_with_route.color_pos = 0 ∧
    leaf_with_route.s_route_table_size ≠ 0 ∧
    (List.replicate 21 true).length = leaf_with_route.timer + 21 ∧
    button_frames (check_button_body true true false [1, 2, 3, 4, 5, 6] true
      (ticks (List.replicate 21 true)
        (check_button_body true true false [1, 2, 3, 4, 5, 6] true leaf_with_route)))
      = button_frames leaf_with_route + 2 :=
  ⟨by decide, by decide, by decide, by decide,
    (button_debounce_per_request leaf_with_route (List.replicate 21 true) true true true true
      [1, 2, 3, 4, 5, 6] (by decide) (by decide) (by decide) (by decide)).2.2.2.2.2⟩

end MeshSemaforos
